import Mathlib

/-!
System-call authorizers of the Fbt binary translator (`src/fbt_syscall.c`).

A shallow embedding of the authorizers of `fbt_syscall.c` (i386 build, all
feature switches that the file tests are modelled as explicit parameters) and
the properties of the specification that are settled against it.

Conventions of the embedding.

* `ulong_t` is a 32-bit machine word: a natural number below `WORD`, with an
  explicit `% WORD` wherever the source computes a sum or takes a value from
  the kernel.
* The linked list `tld->chunk` (`struct mem_info`, linked by `next`) is a
  `List mem_info`: the head of the list is the first node.
* `tld->signals` is a map from the index to the record stored there. The
  source never compares the index with `MAX_NR_SIGNALS`.
* Memory is seen through the one type the authorizers read and write through
  guest pointers, `struct fbt_sigaction`: `sigmem p` is the record stored at
  address `p`, and `target_at p` says whether that record is guest memory, a
  slot of `tld->signals`, or other data of the translator. Two structs are
  the same struct when their addresses are equal; structs at different
  addresses are taken to lie apart (`structs_apart`).
* `fbt_suicide_str` does not return: an authorizer that calls it ends with
  `Except.error` carrying the message and the state reached at that call.
* Every system call an authorizer issues itself is appended to
  `kernel_calls`; the value the kernel returns is taken from `Env.kernel`.
* The thread list `tld->shared_data->threads` is the list `State.threads` of
  the `tld` pointers of its entries, head first; a thread's own `tld` pointer
  is `tld.addr`.
* `auth_clone`, `auth_exit` and `fbt_bootstrap_thread` also append what they
  do, in order, to `State.events`. Where a call does not come back to its
  caller with a verdict, `Outcome` says how it ended and in which state.
* The assembler sequence that ends `auth_exit` is given instruction by
  instruction (`exit_sequence`) and run on a register file; the register the
  compiler chose for the operand `"r"(arg1)` is the parameter `Env.exit_reg`.
-/

namespace Fbt

/-! ## Machine words and ABI constants -/

/-- Number of values of a `ulong_t` on the 32-bit target. -/
def WORD : Nat := 2 ^ 32

/-- System call numbers of the i386 Linux ABI (`SYS_*` of the system headers). -/
def SYS_signal : Nat := 48
def SYS_sigaction : Nat := 67
def SYS_rt_sigaction : Nat := 174
def SYS_mmap : Nat := 90
def SYS_mmap2 : Nat := 192
def SYS_mprotect : Nat := 125
def SYS_exit : Nat := 1
def SYS_execve : Nat := 11
def SYS_ptrace : Nat := 26
def SYS_munmap : Nat := 91
def SYS_sigreturn : Nat := 119
def SYS_clone : Nat := 120
def SYS_rt_sigreturn : Nat := 173
def SYS_exit_group : Nat := 252

/-- Values of the system headers used by the authorizers. -/
def PROT_READ : Nat := 1
def PROT_WRITE : Nat := 2
def PROT_EXEC : Nat := 4
def MAP_FIXED : Nat := 16
def MAP_ANONYMOUS : Nat := 32
def SIG_DFL : Nat := 0
def SIG_IGN : Nat := 1
def CLONE_VM : Nat := 256

/-- Bitwise complement of a machine word (the `~` of C on `ulong_t`). -/
def wnot (x : Nat) : Nat := WORD - 1 - x % WORD

/-! ## Data model -/

/-- The verdict of an authorizer (`enum syscall_auth_response`);
`SYSCALL_AUTH_FAKE` is the verdict the specification calls EMULATED. -/
inductive syscall_auth_response where
  | SYSCALL_AUTH_GRANTED
  | SYSCALL_AUTH_DENIED
  | SYSCALL_AUTH_FAKE
deriving DecidableEq

open syscall_auth_response

/-- One node of the translator's chunk list (`struct mem_info`): the fields
the authorizers read. -/
structure mem_info where
  ptr : Nat
  size : Nat
deriving DecidableEq

/-- A signal disposition (`struct fbt_sigaction`): the handler is the field
`sigaction`. -/
structure fbt_sigaction where
  sigaction : Nat
  mask : Nat
  flags : Nat
  restorer : Nat
deriving DecidableEq

/-- The four fields of `struct fbt_sigaction`. -/
inductive sigfield where
  | sigaction
  | mask
  | flags
  | restorer
deriving DecidableEq

/-- The field `f` of a record. -/
def fbt_sigaction.get (s : fbt_sigaction) : sigfield → Nat
  | sigfield.sigaction => s.sigaction
  | sigfield.mask => s.mask
  | sigfield.flags => s.flags
  | sigfield.restorer => s.restorer

/-- The record with `w` in field `f`. -/
def fbt_sigaction.set (s : fbt_sigaction) (f : sigfield) (w : Nat) : fbt_sigaction :=
  match f with
  | sigfield.sigaction => { s with sigaction := w }
  | sigfield.mask => { s with mask := w }
  | sigfield.flags => { s with flags := w }
  | sigfield.restorer => { s with restorer := w }

/-- Size of a `struct fbt_sigaction` on the 32-bit target: four words. -/
def sizeof_fbt_sigaction : Nat := 16

/-- What the memory is that a guest-supplied pointer to a
`struct fbt_sigaction` points to. The source casts `arg2` and `arg3` to such a
pointer and dereferences it without a check, and the translator's own data
lie in the same address space: the struct can be guest memory, it can be the
slot `tld->signals[i]` itself, or it can lie in other data of the translator,
where `entry f = some k` says that the word of field `f` is the entry
`tld->syscall_table[k]`. -/
inductive Target where
  | guest
  | signal_slot (i : Nat)
  | translator (entry : sigfield → Option Nat)

/-- The authorizer functions of `fbt_syscall.c`: what an entry of
`tld->syscall_table` can point to. -/
inductive auth_fn where
  | debug_syscall
  | deny_syscall
  | allow_syscall
  | auth_execve
  | auth_mmap
  | auth_mmap2
  | auth_mprotect
  | auth_signal
  | auth_clone
  | auth_exit
deriving DecidableEq

/-- The fields of `struct thread_local_data` the authorizers below use.
`addr` is the address of the struct itself, `shared_data` the pointer to the
shared data, and an entry of `syscall_table` is `none` while it holds no
pointer to an authorizer. The array `signals` has `MAX_NR_SIGNALS` slots in
the source; `signals i` for a larger `i` stands for the memory the source
reaches with that index, which lies behind the array. -/
structure thread_local_data where
  chunk : List mem_info
  signals : Nat → fbt_sigaction
  addr : Nat := 0
  tid : Nat := 0
  shared_data : Nat := 0
  syscall_location : Nat := 0
  syscall_table : Nat → Option auth_fn := fun _ => none
  ind_target : Nat := 0
  bootstrap_thread_trampoline : Nat := 0

/-- A system call issued by an authorizer itself, with the arguments that
reach the kernel. For `sigaction` and `rt_sigaction` the second argument is a
pointer to a `struct fbt_sigaction`; `act` is the record found there when the
call is made, and the third argument of the call is always null. -/
inductive KCall where
  | signal (signum handler : Nat)
  | sigaction (signum : Nat) (act : fbt_sigaction)
  | rt_sigaction (signum : Nat) (act : fbt_sigaction)
  | mmap (addr length prot flags fd offset : Nat)
  | mmap2 (addr length prot flags fd offset : Nat)
  | clone (flags child_stack arg3 arg4 arg5 : Nat)
  | munmap (addr length : Nat)
  | exit (nr code : Nat)
deriving DecidableEq

/-- The handler a system call registers with the kernel, when it registers
one. -/
def KCall.handler : KCall → Option Nat
  | KCall.signal _ h => some h
  | KCall.sigaction _ act => some act.sigaction
  | KCall.rt_sigaction _ act => some act.sigaction
  | KCall.mmap _ _ _ _ _ _ => none
  | KCall.mmap2 _ _ _ _ _ _ => none
  | KCall.clone _ _ _ _ _ => none
  | KCall.munmap _ _ => none
  | KCall.exit _ _ => none

/-! ## The assembler sequence of `auth_exit` -/

/-- The general registers of i386 an operand of the sequence can be in. -/
inductive Reg where
  | eax
  | ebx
  | ecx
  | edx
  | esi
  | edi
  | ebp
deriving DecidableEq

/-- The two memory operands of the sequence: `"m"(tld->chunk->ptr)` and
`"m"(tld->chunk->size)`. -/
inductive MemOperand where
  | chunk_ptr
  | chunk_size
deriving DecidableEq

/-- A source operand of a `movl`: an immediate (constraint `"i"`), a memory
operand (constraint `"m"`) or a register (constraint `"r"`). -/
inductive Operand where
  | imm (v : Nat)
  | mem (m : MemOperand)
  | reg (r : Reg)
deriving DecidableEq

/-- The instructions of the sequence: `movl src, %dst`, `int $0x80`, `hlt`. -/
inductive Instr where
  | movl (src : Operand) (dst : Reg)
  | int80
  | hlt
deriving DecidableEq

/-- The registers in the clobber list of the asm statements of `auth_exit`,
`"memory", "eax", "ecx"` (`"memory"` names no register). The compiler puts
no operand of the statement in a register of this list; the statement
excludes no other general register. -/
def exit_clobbers : List Reg := [Reg.eax, Reg.ecx]

/-- The template of the asm statements of `auth_exit` with its operands
filled in: `%0` is the immediate `SYS_munmap`, `%1` and `%2` are the memory
operands, `%3` is the immediate `nr` and `%4`, `"r"(arg1)`, is the register
`r` the compiler chose for `arg1`. -/
def exit_sequence (nr : Nat) (r : Reg) : List Instr :=
  [ Instr.movl (Operand.imm SYS_munmap) Reg.eax,
    Instr.movl (Operand.mem MemOperand.chunk_ptr) Reg.ebx,
    Instr.movl (Operand.mem MemOperand.chunk_size) Reg.ecx,
    Instr.int80,
    Instr.movl (Operand.imm nr) Reg.eax,
    Instr.movl (Operand.reg r) Reg.ebx,
    Instr.int80,
    Instr.hlt ]

/-- The asm statement `auth_exit` runs: the one with `SYS_exit` where
`syscall_nr == SYS_exit`, the one with `SYS_exit_group` otherwise. -/
def auth_exit_asm (syscall_nr : Nat) (r : Reg) : List Instr :=
  if syscall_nr = SYS_exit then exit_sequence SYS_exit r
  else exit_sequence SYS_exit_group r

/-- Whether an instruction has a memory operand. -/
def Instr.touches_memory : Instr → Bool
  | Instr.movl (Operand.mem _) _ => true
  | _ => false

/-- The instructions after the first `int $0x80` of a sequence and before the
next one. -/
def between_syscalls (is : List Instr) : List Instr :=
  ((is.dropWhile (fun i => decide (i ≠ Instr.int80))).drop 1).takeWhile
    (fun i => decide (i ≠ Instr.int80))

/-- The registers during the sequence, the system calls issued so far (the
content of `eax`, `ebx`, `ecx` at each `int $0x80`, oldest first) and the
memory operands read so far, each with the number of system calls issued
before the read. -/
structure Machine where
  regs : Reg → Nat
  syscalls : List (Nat × Nat × Nat)
  loads : List (Nat × MemOperand)

/-- One instruction. A memory operand is read from the chunk `tld->chunk`
points to; `int $0x80` hands `eax`, `ebx`, `ecx` to the kernel and leaves the
kernel's answer in `eax`; `hlt` changes no register. -/
def Instr.step (chunk : mem_info) (kernel : Nat × Nat × Nat → Nat) (m : Machine) :
    Instr → Machine
  | Instr.movl (Operand.imm v) dst => { m with regs := Function.update m.regs dst (v % WORD) }
  | Instr.movl (Operand.mem MemOperand.chunk_ptr) dst =>
      { m with regs := Function.update m.regs dst chunk.ptr,
               loads := m.loads ++ [(m.syscalls.length, MemOperand.chunk_ptr)] }
  | Instr.movl (Operand.mem MemOperand.chunk_size) dst =>
      { m with regs := Function.update m.regs dst chunk.size,
               loads := m.loads ++ [(m.syscalls.length, MemOperand.chunk_size)] }
  | Instr.movl (Operand.reg r) dst => { m with regs := Function.update m.regs dst (m.regs r) }
  | Instr.int80 =>
      { m with syscalls := m.syscalls ++ [(m.regs Reg.eax, m.regs Reg.ebx, m.regs Reg.ecx)],
               regs := Function.update m.regs Reg.eax
                 (kernel (m.regs Reg.eax, m.regs Reg.ebx, m.regs Reg.ecx) % WORD) }
  | Instr.hlt => m

/-- A sequence of instructions, first instruction first. -/
def run_sequence (chunk : mem_info) (kernel : Nat × Nat × Nat → Nat) :
    List Instr → Machine → Machine
  | [], m => m
  | i :: is, m => run_sequence chunk kernel is (Instr.step chunk kernel m i)

/-- The machine at the head of the sequence: `arg1` is in the register `r`
of operand `%4`, the other registers hold what `regs` says. -/
def exit_entry (regs : Reg → Nat) (r : Reg) (arg1 : Nat) : Machine :=
  { regs := Function.update regs r arg1, syscalls := [], loads := [] }

/-- What lies outside the authorizers: the build switch
`SECU_ALLOW_RUNTIME_ALLOC`, the address of the translator's `sighandler`, and
the value the kernel returns for a call. For the thread authorizers: the
build switches `SHARED_DATA` and `HIJACKCONTROL`; the thread id the kernel
reports to `fbt_gettid`; the thread-local data `fbt_init(NULL)` returns; the
address `fbt_create_trampoline` returns for a thread-local data, a target and
an origin; the chunk list `fbt_exit` leaves in a thread-local data; the
addresses of the translator functions entered in the code cache; the content
of register `ebx` at the clone sequence; whether the kernel comes back from
`exit` / `exit_group`; the register `exit_reg` the compiler chose for the
operand `"r"(arg1)` of the exit sequence and the content `regs` of the
registers when that sequence starts. For the stores of `auth_signal` through
a guest pointer into the dispatch table: `fn_at w` is the authorizer whose
code starts at address `w`, if there is one. -/
structure Env where
  SECU_ALLOW_RUNTIME_ALLOC : Bool
  sighandler : Nat
  kernel : KCall → Nat
  SHARED_DATA : Bool := true
  HIJACKCONTROL : Bool := false
  gettid : Nat := 0
  fbt_init : thread_local_data :=
    { chunk := [], signals := fun _ => { sigaction := 0, mask := 0, flags := 0, restorer := 0 } }
  fbt_create_trampoline : Nat → Nat → Nat → Nat := fun _ _ _ => 0
  fbt_exit : thread_local_data → List mem_info := fun tld => tld.chunk
  fbt_commit_transaction_addr : Nat := 0
  fbt_end_transaction_addr : Nat := 0
  fbt_exit_addr : Nat := 0
  ebx : Nat := 0
  exit_returns : Bool := false
  exit_reg : Reg := Reg.edx
  regs : Reg → Nat := fun _ => 0
  fn_at : Nat → Option auth_fn := fun _ => none

/-- What the thread authorizers do besides system calls, and their system
calls, in the order of execution. `child_*` events act on the thread-local
data that `fbt_init(NULL)` returned; `store` writes one word of memory. -/
inductive Event where
  | fbt_mutex_lock
  | fbt_mutex_unlock
  | fbt_end_transaction
  | fbt_exit
  | fbt_init
  | fbt_ccache_add_entry (child src dst : Nat)
  | fbt_create_trampoline (child target origin : Nat)
  | store (addr value : Nat)
  | syscall (c : KCall)
deriving DecidableEq

/-- The state an authorizer call works on: the calling thread's data, the
cell `*retval`, guest memory read as `struct fbt_sigaction`, the list V of
regions admitted as executable, and the system calls issued so far, oldest
first. Further: the thread list of the shared data (the `tld` pointer of each
entry, head first), the thread-local data allocated for new threads, the
events of the thread authorizers, oldest first, and guest memory read as a
null-terminated array of strings (`envmem p` is the array at address `p`,
without the terminating null). `target_at p` says what the struct at the
guest-supplied address `p` is; `sigmem p` is the record found at `p`, also
where `p` does not point to guest memory; `stray_stores` lists the stores
through a guest pointer that landed in data of the translator other than
`tld->signals`, oldest first (pointer, field, word). Two structs at different
addresses are taken not to share bytes. -/
structure State where
  tld : thread_local_data
  retval : Nat
  sigmem : Nat → fbt_sigaction
  valid : List mem_info
  kernel_calls : List KCall
  threads : List Nat := []
  children : List thread_local_data := []
  events : List Event := []
  envmem : Nat → List String := fun _ => []
  target_at : Nat → Target := fun _ => Target.guest
  stray_stores : List (Nat × sigfield × Nat) := []

/-- The result of an authorizer call: a fatal abort with its message and the
state reached when `fbt_suicide_str` was called, or a verdict together with
the state it leaves. -/
abbrev Result := Except (String × State) (syscall_auth_response × State)

/-- How a call ends when it need not come back with a verdict, and the state
it has reached: it returned a verdict; it ended in `fbt_suicide_str`; it ran
into a fault of the machine (a dereferenced null pointer, a privileged
instruction); the kernel ended the thread in `exit` / `exit_group`; or, in the
child of a `clone`, control left through the `ret` of the clone sequence to
the address on top of the child stack. -/
inductive Outcome where
  | returned (v : syscall_auth_response) (st : State)
  | abort (msg : String) (st : State)
  | fault (what : String) (st : State)
  | exited (st : State)
  | jumped (target : Nat) (st : State)

/-- The state an outcome has reached. -/
def Outcome.st : Outcome → State
  | Outcome.returned _ st => st
  | Outcome.abort _ st => st
  | Outcome.fault _ st => st
  | Outcome.exited st => st
  | Outcome.jumped _ st => st

/-- An authorizer of type `Result` seen as an outcome. -/
def Outcome.of_result : Result → Outcome
  | Except.ok (v, st1) => Outcome.returned v st1
  | Except.error (msg, st1) => Outcome.abort msg st1

/-! ## External collaborators -/

/-- Modelled from the spec: `fbt_suicide_str` is not under src/; the
specification describes it as an unrecoverable abort with a diagnostic
string, so the call never returns to its caller. `st` is the state the
caller has reached at the call: what it has written before is in it, what it
would write afterwards is not. -/
def fbt_suicide_str {σ : Type} (st : σ) (msg : String) : Except (String × σ) Unit :=
  Except.error (msg, st)

/-- Modelled from the spec: the macro `OVERLAPPING_REGIONS` is declared in a
header that is not under src/. The specification gives it as the predicate
`max(a.start, b.start) < min(a.end, b.end)`; the ends are sums of machine
words and wrap at `WORD`. -/
def OVERLAPPING_REGIONS (addr1 len1 addr2 len2 : Nat) : Bool :=
  decide (max addr1 addr2 < min ((addr1 + len1) % WORD) ((addr2 + len2) % WORD))

/-- Modelled from the spec: `fbt_memprotect_add_valid` is not under src/; the
specification gives it as appending the region to V. -/
def fbt_memprotect_add_valid (st : State) (start size : Nat) : State :=
  { st with valid := st.valid ++ [{ ptr := start, size := size }] }

/-- Modelled from the spec: the system call stubs (`fbt_signal`,
`fbt_sigaction`, `fbt_rt_sigaction`, `fbt_mmap`, `fbt_mmap2`) are not under
src/; the specification gives them as wrappers over the raw system call
instruction. A stub issues the call and yields the word the kernel returned;
the caller stores it in the lvalue given as the stub's result argument. -/
def fbt_syscall (env : Env) (st : State) (c : KCall) : Nat × State :=
  (env.kernel c % WORD, { st with kernel_calls := st.kernel_calls ++ [c] })

/-! ## Address-space authorizers -/

/-- The walk over `tld->chunk` shared by `auth_mmap`, `auth_mmap2` and
`auth_mprotect`: the `while (mem_info != NULL)` loop, which aborts at the
first node that `OVERLAPPING_REGIONS` reports. -/
def walk_chunks (st : State) (msg : String) (startptr size : Nat) :
    List mem_info → Except (String × State) Unit
  | [] => pure ()
  | mem_info :: next => do
      if OVERLAPPING_REGIONS startptr size mem_info.ptr mem_info.size then
        fbt_suicide_str st msg
      walk_chunks st msg startptr size next

/-- Source function `auth_mmap`. In the runtime-allocation branch the stub is
called as `fbt_mmap(..., arg6, retval)`: its result argument is the local
pointer variable `retval`, not the cell `*retval`, and that variable is what
`fbt_memprotect_add_valid((void*) retval, arg2)` then receives. -/
def auth_mmap (env : Env) (st : State) (syscall_nr arg1 arg2 arg3 arg4 arg5 arg6
    _is_sysenter : Nat) : Result := do
  if syscall_nr ≠ SYS_mmap then
    fbt_suicide_str st "Invalid system call number in mmap (fbt_syscall.c)."
  if env.SECU_ALLOW_RUNTIME_ALLOC ∧ arg3 &&& PROT_EXEC ≠ 0 ∧ arg4 &&& MAP_ANONYMOUS ≠ 0 then
    let (retval_var, st1) :=
      fbt_syscall env st (KCall.mmap arg1 arg2 arg3 (arg4 &&& wnot MAP_FIXED) arg5 arg6)
    return (SYSCALL_AUTH_FAKE, fbt_memprotect_add_valid st1 retval_var arg2)
  let startptr := arg1
  let size := arg2
  if startptr ≠ 0 then
    walk_chunks st "Application tried to mmap internal BT data! (fbt_syscall.c)\n"
      startptr size st.tld.chunk
  return (SYSCALL_AUTH_GRANTED, st)

/-- Source function `auth_mmap2`: the text of `auth_mmap` with `SYS_mmap2`
and the stub `fbt_mmap2`. -/
def auth_mmap2 (env : Env) (st : State) (syscall_nr arg1 arg2 arg3 arg4 arg5 arg6
    _is_sysenter : Nat) : Result := do
  if syscall_nr ≠ SYS_mmap2 then
    fbt_suicide_str st "Invalid system call number in mmap (fbt_syscall.c)."
  if env.SECU_ALLOW_RUNTIME_ALLOC ∧ arg3 &&& PROT_EXEC ≠ 0 ∧ arg4 &&& MAP_ANONYMOUS ≠ 0 then
    let (retval_var, st1) :=
      fbt_syscall env st (KCall.mmap2 arg1 arg2 arg3 (arg4 &&& wnot MAP_FIXED) arg5 arg6)
    return (SYSCALL_AUTH_FAKE, fbt_memprotect_add_valid st1 retval_var arg2)
  let startptr := arg1
  let size := arg2
  if startptr ≠ 0 then
    walk_chunks st "Application tried to mmap internal BT data! (fbt_syscall.c)\n"
      startptr size st.tld.chunk
  return (SYSCALL_AUTH_GRANTED, st)

/-- Source function `auth_mprotect`: the walk is made for every start
address, then the region is admitted to V when the build allows runtime
allocation and the new protection has `PROT_EXEC`. -/
def auth_mprotect (env : Env) (st : State) (syscall_nr arg1 arg2 arg3 _arg4 _arg5 _arg6
    _is_sysenter : Nat) : Result := do
  if syscall_nr ≠ SYS_mprotect then
    fbt_suicide_str st "Invalid system call number in mprotect (fbt_syscall.c)."
  let startptr := arg1
  let size := arg2
  walk_chunks st "Application tried to remap internal BT data! (fbt_syscall.c)\n"
    startptr size st.tld.chunk
  if env.SECU_ALLOW_RUNTIME_ALLOC ∧ arg3 &&& PROT_EXEC ≠ 0 then
    return (SYSCALL_AUTH_GRANTED, fbt_memprotect_add_valid st arg1 arg2)
  return (SYSCALL_AUTH_GRANTED, st)

/-! ## Signal authorizer -/

/-- A write to fields of the slot `tld->signals[i]`. -/
def State.set_signal (st : State) (i : Nat) (f : fbt_sigaction → fbt_sigaction) : State :=
  { st with tld := { st.tld with signals := Function.update st.tld.signals i (f (st.tld.signals i)) } }

/-- A write to fields of the record found at address `p`. -/
def State.set_sigmem (st : State) (p : Nat) (f : fbt_sigaction → fbt_sigaction) : State :=
  { st with sigmem := Function.update st.sigmem p (f (st.sigmem p)) }

/-- The store `((struct fbt_sigaction*)p)->f = w` through a guest-supplied
pointer `p`. The word arrives in the record at `p`; where that record is the
slot `tld->signals[i]` the slot has it; where it lies in other data of the
translator the store is listed, and where the word is the entry
`tld->syscall_table[k]` the entry then points to the authorizer at address
`w`, if there is one. -/
def State.store_field (env : Env) (st : State) (p : Nat) (f : sigfield) (w : Nat) : State :=
  let st := st.set_sigmem p (fun s => s.set f w)
  match st.target_at p with
  | Target.guest => st
  | Target.signal_slot i => st.set_signal i (fun s => s.set f w)
  | Target.translator entry =>
      let st := { st with stray_stores := st.stray_stores ++ [(p, f, w)] }
      match entry f with
      | some k =>
          { st with tld := { st.tld with
              syscall_table := Function.update st.tld.syscall_table k (env.fn_at w) } }
      | none => st

/-- The load of `((struct fbt_sigaction*)p)->f` through a guest-supplied
pointer `p`. -/
def State.load_field (st : State) (p : Nat) (f : sigfield) : Nat :=
  match st.target_at p with
  | Target.signal_slot i => (st.tld.signals i).get f
  | _ => (st.sigmem p).get f

/-- Source function `deny_syscall`: after the trace output it calls
`fbt_suicide_str`; the assignment `*retval = -1` and the return follow that
call. -/
def deny_syscall (_env : Env) (st : State) (_syscall_nr _arg1 _arg2 _arg3 _arg4 _arg5 _arg6
    _is_sysenter : Nat) : Result := do
  fbt_suicide_str st "This system call is illegal (fbt_syscall.c).\n"
  return (SYSCALL_AUTH_FAKE, { st with retval := WORD - 1 })

/-- Source function `auth_signal` (build with `SYS_signal` defined, as on
i386). `arg1` is the signal number; `arg2` is the handler for `signal` and the
pointer to the new struct for `sigaction` / `rt_sigaction`, where `arg3` is
the pointer to the old struct. -/
def auth_signal (env : Env) (st : State) (syscall_nr arg1 arg2 arg3 arg4 arg5 arg6
    is_sysenter : Nat) : Result := do
  if syscall_nr ≠ SYS_signal then
    if syscall_nr ≠ SYS_sigaction ∧ syscall_nr ≠ SYS_rt_sigaction then
      fbt_suicide_str st "Invalid system call number in signal auth (fbt_syscall.c)."
  if syscall_nr = SYS_signal then
    let oldfunction := (st.tld.signals arg1).sigaction
    let st := st.set_signal arg1 (fun s => { s with mask := 0 })
    let st := st.set_signal arg1 (fun s => { s with flags := 0 })
    let st := st.set_signal arg1 (fun s => { s with restorer := 0 })
    let st := st.set_signal arg1 (fun s => { s with sigaction := arg2 })
    let (res, st) :=
      if arg2 = SIG_IGN ∨ arg2 = SIG_DFL then
        fbt_syscall env st (KCall.signal arg1 arg2)
      else
        fbt_syscall env st (KCall.signal arg1 env.sighandler)
    let st := { st with retval := res }
    let st := if st.retval < WORD - (128 + 1) then { st with retval := oldfunction } else st
    return (SYSCALL_AUTH_FAKE, st)
  if syscall_nr = SYS_sigaction ∨ syscall_nr = SYS_rt_sigaction then
    let st := { st with retval := 0 }
    let st :=
      if arg3 ≠ 0 then
        let st := st.store_field env arg3 sigfield.sigaction (st.tld.signals arg1).sigaction
        let st := st.store_field env arg3 sigfield.mask (st.tld.signals arg1).mask
        let st := st.store_field env arg3 sigfield.flags (st.tld.signals arg1).flags
        st.store_field env arg3 sigfield.restorer (st.tld.signals arg1).restorer
      else st
    let st :=
      if arg2 ≠ 0 then
        let st := st.set_signal arg1 (fun s => { s with mask := st.load_field arg2 sigfield.mask })
        let st := st.set_signal arg1 (fun s => { s with flags := st.load_field arg2 sigfield.flags })
        let st := st.set_signal arg1
          (fun s => { s with restorer := st.load_field arg2 sigfield.restorer })
        let st := st.set_signal arg1
          (fun s => { s with sigaction := st.load_field arg2 sigfield.sigaction })
        let (res, st) :=
          if syscall_nr = SYS_sigaction then
            fbt_syscall env st (KCall.sigaction arg1 (st.tld.signals arg1))
          else
            fbt_syscall env st (KCall.rt_sigaction arg1 (st.tld.signals arg1))
        { st with retval := res }
      else st
    return (SYSCALL_AUTH_FAKE, st)
  deny_syscall env st syscall_nr arg1 arg2 arg3 arg4 arg5 arg6 is_sysenter

/-! ## Plain authorizers and `execve` -/

/-- Source function `debug_syscall`: both branches on `is_sysenter` only
print, and only in a `DEBUG` build. -/
def debug_syscall (_env : Env) (st : State) (_syscall_nr _arg1 _arg2 _arg3 _arg4 _arg5 _arg6
    _is_sysenter : Nat) : Result := do
  return (SYSCALL_AUTH_GRANTED, st)

/-- Source function `allow_syscall`. -/
def allow_syscall (_env : Env) (st : State) (_syscall_nr _arg1 _arg2 _arg3 _arg4 _arg5 _arg6
    _is_sysenter : Nat) : Result := do
  return (SYSCALL_AUTH_GRANTED, st)

/-- Source function `auth_execve`: after the check of the system call number
the statement `return SYSCALL_AUTH_GRANTED;` ends the function; the loop over
the environment array `arg3` that follows it in the source is never
executed. -/
def auth_execve (_env : Env) (st : State) (syscall_nr _arg1 _arg2 _arg3 _arg4 _arg5 _arg6
    _is_sysenter : Nat) : Result := do
  if syscall_nr ≠ SYS_execve then
    fbt_suicide_str st "Invalid system call number in execve (fbt_syscall.c)."
  return (SYSCALL_AUTH_GRANTED, st)

/-! ## Thread list -/

/-- The list operation of `fbt_bootstrap_thread`: a new entry for `tld`
becomes the head of the list. -/
def register_thread_entry (tld : Nat) (threads : List Nat) : List Nat :=
  tld :: threads

/-- The list operation of `auth_exit`. The loop
`while (te != NULL && te->tld != tld)` stops at the first entry of `tld` or at
the end of the list; the test `if (te->tld == tld)` that follows reads `te`
without a null check, so at the end of the list it dereferences a null
pointer (`none`). At an entry of `tld` that entry is unlinked, through
`prev->next` or through the head of the list. -/
def unlink_thread_entry (tld : Nat) : List Nat → Option (List Nat)
  | [] => none
  | te :: next =>
      if te ≠ tld then (unlink_thread_entry tld next).map (fun rest => te :: rest)
      else some next

/-- Source function `fbt_bootstrap_thread`. -/
def fbt_bootstrap_thread (env : Env) (st : State) : State :=
  if env.SHARED_DATA then
    let st := { st with events := st.events ++ [Event.fbt_mutex_lock] }
    let st := { st with tld := { st.tld with tid := env.gettid % WORD } }
    let st := { st with threads := register_thread_entry st.tld.addr st.threads }
    { st with events := st.events ++ [Event.fbt_mutex_unlock] }
  else st

/-- A system call issued by a thread authorizer: recorded as a kernel call
and as an event. -/
def State.issue (st : State) (c : KCall) : State :=
  { st with kernel_calls := st.kernel_calls ++ [c], events := st.events ++ [Event.syscall c] }

/-- The `SHARED_DATA` block of `auth_exit`: lock, unlink of the entry of the
calling thread, unlock; `none` when the unlink dereferences a null pointer. -/
def auth_exit_unregister (env : Env) (st : State) : Option State :=
  if env.SHARED_DATA then
    let st := { st with events := st.events ++ [Event.fbt_mutex_lock] }
    (unlink_thread_entry st.tld.addr st.threads).map (fun threads =>
      { st with threads := threads, events := st.events ++ [Event.fbt_mutex_unlock] })
  else some st

/-- The system call the kernel is asked for at an `int $0x80` of the exit
sequence, read from `eax`, `ebx`, `ecx`: `munmap(ebx, ecx)` where `eax` is
`SYS_munmap`, and otherwise the call number `eax` (`exit` or `exit_group`)
with the code `ebx`. -/
def KCall.of_regs : Nat × Nat × Nat → KCall
  | (eax, ebx, ecx) => if eax = SYS_munmap then KCall.munmap ebx ecx else KCall.exit eax ebx

/-- The rest of `auth_exit` (i386): `fbt_end_transaction()`, `fbt_exit(tld)`
and the assembler sequence, run instruction by instruction with `arg1` in the
register `env.exit_reg`: the system calls it issues are those of its two
`int $0x80`, with the registers as the sequence left them. After the second
one comes `hlt`, a privileged instruction, which faults in user mode. -/
def auth_exit_tail (env : Env) (st : State) (syscall_nr arg1 : Nat) : Outcome :=
  let st := { st with events := st.events ++ [Event.fbt_end_transaction] }
  let st := { st with events := st.events ++ [Event.fbt_exit],
                      tld := { st.tld with chunk := env.fbt_exit st.tld } }
  match st.tld.chunk with
  | [] => Outcome.fault "tld->chunk->ptr read with tld->chunk == NULL" st
  | chunk :: _ =>
    let m := run_sequence chunk (fun r => env.kernel (KCall.of_regs r))
      (auth_exit_asm syscall_nr env.exit_reg) (exit_entry env.regs env.exit_reg arg1)
    let st := m.syscalls.foldl (fun st r => st.issue (KCall.of_regs r)) st
    if env.exit_returns then Outcome.fault "hlt executed in user mode" st
    else Outcome.exited st

/-- Source function `auth_exit` (i386): the check of the system call number,
the `SHARED_DATA` block, then the rest. -/
def auth_exit (env : Env) (st : State) (syscall_nr arg1 _arg2 _arg3 _arg4 _arg5 _arg6
    _is_sysenter : Nat) : Outcome :=
  if syscall_nr ≠ SYS_exit ∧ syscall_nr ≠ SYS_exit_group then
    Outcome.abort "Invalid system call number in exit auth (fbt_syscall.c)." st
  else
    match auth_exit_unregister env st with
    | none =>
        Outcome.fault "te->tld read with te == NULL"
          { st with events := st.events ++ [Event.fbt_mutex_lock] }
    | some st => auth_exit_tail env st syscall_nr arg1

/-- Source function `auth_clone` (i386). In the thread branch the assembler
sequence lowers the child stack pointer by one more word, stores `ebx` there
and issues `clone`; where the kernel returns 0 the sequence runs in the new
thread and leaves through `ret` to the word stored at `childsp`. -/
def auth_clone (env : Env) (st : State) (syscall_nr arg1 arg2 arg3 arg4 arg5 _arg6
    is_sysenter : Nat) : Outcome :=
  if syscall_nr ≠ SYS_clone then
    Outcome.abort "Invalid system call number in clone auth (fbt_syscall.c)." st
  else if arg1 &&& CLONE_VM = 0 then
    let c := KCall.clone arg1 arg2 arg3 arg4 arg5
    let local_ret := env.kernel c % WORD
    let st := st.issue c
    Outcome.returned SYSCALL_AUTH_FAKE { st with retval := local_ret }
  else if arg1 &&& CLONE_VM ≠ 0 ∧ is_sysenter = 0 then
    let syscall_location := (st.tld.syscall_location + 2) % WORD
    let new_threads_tld := env.fbt_init
    let st := { st with events := st.events ++ [Event.fbt_init] }
    let new_threads_tld :=
      if env.SHARED_DATA then { new_threads_tld with shared_data := st.tld.shared_data }
      else new_threads_tld
    let st := { st with events := st.events ++
      [Event.fbt_ccache_add_entry new_threads_tld.addr env.fbt_commit_transaction_addr
        env.fbt_end_transaction_addr] }
    let st :=
      if env.HIJACKCONTROL then
        { st with events := st.events ++
          [Event.fbt_ccache_add_entry new_threads_tld.addr env.fbt_exit_addr env.fbt_exit_addr] }
      else st
    let childsp := (arg2 + (WORD - 4)) % WORD
    let trampo := env.fbt_create_trampoline new_threads_tld.addr syscall_location childsp
    let st := { st with events := st.events ++
      [Event.fbt_create_trampoline new_threads_tld.addr syscall_location childsp] }
    let new_threads_tld :=
      if env.SHARED_DATA then { new_threads_tld with ind_target := trampo }
      else new_threads_tld
    let top :=
      if env.SHARED_DATA then new_threads_tld.bootstrap_thread_trampoline else trampo
    let st := { st with events := st.events ++ [Event.store childsp top],
                        children := st.children ++ [new_threads_tld] }
    let ecx := (childsp + (WORD - 4)) % WORD
    let st := { st with events := st.events ++ [Event.store ecx env.ebx] }
    let c := KCall.clone arg1 ecx arg3 arg4 arg5
    let eax := env.kernel c % WORD
    let st := st.issue c
    if eax = 0 then Outcome.jumped top st
    else Outcome.returned SYSCALL_AUTH_FAKE { st with retval := eax }
  else
    Outcome.abort "Unhandled combination of arguments for clone.\n" st

/-- A call through a function pointer of the dispatch table. -/
def auth_fn.call (f : auth_fn) (env : Env) (st : State) (syscall_nr arg1 arg2 arg3 arg4 arg5
    arg6 is_sysenter : Nat) : Outcome :=
  match f with
  | auth_fn.debug_syscall =>
      Outcome.of_result (Fbt.debug_syscall env st syscall_nr arg1 arg2 arg3 arg4 arg5 arg6 is_sysenter)
  | auth_fn.deny_syscall =>
      Outcome.of_result (Fbt.deny_syscall env st syscall_nr arg1 arg2 arg3 arg4 arg5 arg6 is_sysenter)
  | auth_fn.allow_syscall =>
      Outcome.of_result (Fbt.allow_syscall env st syscall_nr arg1 arg2 arg3 arg4 arg5 arg6 is_sysenter)
  | auth_fn.auth_execve =>
      Outcome.of_result (Fbt.auth_execve env st syscall_nr arg1 arg2 arg3 arg4 arg5 arg6 is_sysenter)
  | auth_fn.auth_mmap =>
      Outcome.of_result (Fbt.auth_mmap env st syscall_nr arg1 arg2 arg3 arg4 arg5 arg6 is_sysenter)
  | auth_fn.auth_mmap2 =>
      Outcome.of_result (Fbt.auth_mmap2 env st syscall_nr arg1 arg2 arg3 arg4 arg5 arg6 is_sysenter)
  | auth_fn.auth_mprotect =>
      Outcome.of_result (Fbt.auth_mprotect env st syscall_nr arg1 arg2 arg3 arg4 arg5 arg6 is_sysenter)
  | auth_fn.auth_signal =>
      Outcome.of_result (Fbt.auth_signal env st syscall_nr arg1 arg2 arg3 arg4 arg5 arg6 is_sysenter)
  | auth_fn.auth_clone => Fbt.auth_clone env st syscall_nr arg1 arg2 arg3 arg4 arg5 arg6 is_sysenter
  | auth_fn.auth_exit => Fbt.auth_exit env st syscall_nr arg1 arg2 arg3 arg4 arg5 arg6 is_sysenter

/-! ## Dispatch table -/

/-- What the headers that are not under src/ fix for `fbt_init_syscalls` and
`init_signal_handlers`: the constants `NR_syscalls`, `MAX_SYSCALLS_TABLE` and
`MAX_NR_SIGNALS`; the numbers `SYS_unused1`, `SYS_unused2`, `SYS_unused3`
(present together when `SYS_unused1` is defined) and `SYS_sys_setaltroot`
(when defined); the switches `HANDLE_SIGNALS`, `HANDLE_THREADS` and
`SLEEP_ON_FAIL`; and the address of `failhandler`. -/
structure Build where
  NR_syscalls : Nat
  MAX_SYSCALLS_TABLE : Nat
  MAX_NR_SIGNALS : Nat
  SYS_unused : Option (Nat × Nat × Nat)
  SYS_sys_setaltroot : Option Nat
  HANDLE_SIGNALS : Bool
  HANDLE_THREADS : Bool
  SLEEP_ON_FAIL : Bool
  failhandler : Nat

/-- Modelled from the spec: the kernel as `init_signal_handlers` meets it
through the stub `fbt_sigaction`, which is not under src/. `old_disposition i`
is the disposition the kernel writes for signal `i` when it is queried, `none`
when the query fails and the slot is left as it is. `install_fails i` says
that installing a handler for signal `i` fails; the stub that is given a
message then ends in `fbt_suicide_str` with that message. -/
structure InitKernel where
  old_disposition : Nat → Option fbt_sigaction
  install_fails : Nat → Bool

/-- The assignment `tld->syscall_table[i] = &f`. -/
def table_set (tld : thread_local_data) (i : Nat) (f : auth_fn) : thread_local_data :=
  { tld with syscall_table := Function.update tld.syscall_table i (some f) }

/-- A loop `for (; i < i + n; ++i) tld->syscall_table[i] = &f`: `n` rounds
from index `i` upwards. -/
def fill_table (f : auth_fn) : Nat → Nat → thread_local_data → thread_local_data
  | _, 0, tld => tld
  | i, n + 1, tld => fill_table f (i + 1) n (table_set tld i f)

/-- The loop of `init_signal_handlers`: `n` rounds of
`fbt_sigaction(i, 0x0, &(tld->signals[i]), retval)` from index `i` upwards. -/
def query_signals (k : InitKernel) : Nat → Nat → thread_local_data → thread_local_data
  | _, 0, tld => tld
  | i, n + 1, tld =>
      query_signals k (i + 1) n
        (match k.old_disposition i with
         | some d => { tld with signals := Function.update tld.signals i d }
         | none => tld)

/-- One step of the `SLEEP_ON_FAIL` part of `init_signal_handlers`:
`tld->signals[sig].sigaction = &failhandler`, then the stub with a message. -/
def install_failhandler (b : Build) (k : InitKernel) (sig : Nat) (msg : String)
    (tld : thread_local_data) : Except (String × thread_local_data) thread_local_data := do
  let slot := tld.signals sig
  let tld := { tld with signals :=
    (Function.update tld.signals sig { slot with sigaction := b.failhandler }) }
  if k.install_fails sig then
    fbt_suicide_str tld msg
  return tld

/-- Source function `init_signal_handlers`. -/
def init_signal_handlers (b : Build) (k : InitKernel) (tld : thread_local_data) :
    Except (String × thread_local_data) thread_local_data := do
  let tld := query_signals k 0 b.MAX_NR_SIGNALS tld
  if b.SLEEP_ON_FAIL then
    let tld ← install_failhandler b k 4
      "Could not install SIGILL handler (fbt_syscall.c)\n" tld
    let tld ← install_failhandler b k 7
      "Could not install SIGBUS handler (fbt_syscall.c)\n" tld
    install_failhandler b k 11
      "Could not install SIGSEGV handler (fbt_syscall.c)\n" tld
  else
    return tld

/-- Source function `fbt_init_syscalls`. The first loop runs over
`0 .. NR_syscalls` inclusive, the second from there up to
`MAX_SYSCALLS_TABLE - 1`. -/
def fbt_init_syscalls (b : Build) (k : InitKernel) (tld : thread_local_data) :
    Except (String × thread_local_data) thread_local_data := do
  let tld := fill_table auth_fn.allow_syscall 0 (b.NR_syscalls + 1) tld
  let tld := fill_table auth_fn.deny_syscall (b.NR_syscalls + 1)
    (b.MAX_SYSCALLS_TABLE - (b.NR_syscalls + 1)) tld
  let tld := table_set tld SYS_ptrace auth_fn.deny_syscall
  let tld := table_set tld SYS_sigreturn auth_fn.deny_syscall
  let tld := table_set tld SYS_rt_sigreturn auth_fn.deny_syscall
  let tld :=
    match b.SYS_unused with
    | some (SYS_unused1, SYS_unused2, SYS_unused3) =>
        table_set (table_set (table_set tld SYS_unused1 auth_fn.deny_syscall)
          SYS_unused2 auth_fn.deny_syscall) SYS_unused3 auth_fn.deny_syscall
    | none => tld
  let tld :=
    match b.SYS_sys_setaltroot with
    | some SYS_sys_setaltroot => table_set tld SYS_sys_setaltroot auth_fn.deny_syscall
    | none => tld
  let tld := table_set tld SYS_execve auth_fn.auth_execve
  let tld := table_set tld SYS_mmap auth_fn.auth_mmap
  let tld := table_set tld SYS_mmap2 auth_fn.auth_mmap2
  let tld := table_set tld SYS_mprotect auth_fn.auth_mprotect
  let tld ←
    if b.HANDLE_SIGNALS then
      init_signal_handlers b k
        (table_set (table_set (table_set tld SYS_signal auth_fn.auth_signal)
          SYS_sigaction auth_fn.auth_signal) SYS_rt_sigaction auth_fn.auth_signal)
    else pure tld
  let tld :=
    if b.HANDLE_THREADS then
      table_set (table_set (table_set tld SYS_clone auth_fn.auth_clone)
        SYS_exit auth_fn.auth_exit) SYS_exit_group auth_fn.auth_exit
    else tld
  return tld

/-- The indices `fbt_init_syscalls` assigns after its two loops. -/
def overridden (b : Build) : List Nat :=
  [SYS_ptrace, SYS_sigreturn, SYS_rt_sigreturn] ++
  (match b.SYS_unused with
   | some (SYS_unused1, SYS_unused2, SYS_unused3) => [SYS_unused1, SYS_unused2, SYS_unused3]
   | none => []) ++
  (match b.SYS_sys_setaltroot with
   | some SYS_sys_setaltroot => [SYS_sys_setaltroot]
   | none => []) ++
  [SYS_execve, SYS_mmap, SYS_mmap2, SYS_mprotect] ++
  (if b.HANDLE_SIGNALS then [SYS_signal, SYS_sigaction, SYS_rt_sigaction] else []) ++
  (if b.HANDLE_THREADS then [SYS_clone, SYS_exit, SYS_exit_group] else [])

/-! ## Sequences of thread registrations -/

/-- A step on the thread list: the registration of `fbt_bootstrap_thread` or
the unlink of `auth_exit`, made by the thread whose data is at `tld`. -/
inductive thread_op where
  | register (tld : Nat)
  | unregister (tld : Nat)
deriving DecidableEq

/-- The state as the thread meets it whose thread-local data `tlds t` is at
address `t`: its own `tld`, and everything shared as it is. -/
def State.as_thread (st : State) (tlds : Nat → thread_local_data) (t : Nat) : State :=
  { st with tld := { tlds t with addr := t } }

/-- Whether an outcome is the fault of the unlink in `auth_exit`. -/
def Outcome.unlink_fault : Outcome → Bool
  | Outcome.fault what _ => what == "te->tld read with te == NULL"
  | _ => false

/-- One step on the shared state: the thread at `t` calls
`fbt_bootstrap_thread`, or it calls `auth_exit` with `SYS_exit`; the next step
starts from the state that call has reached. The step is `none` when
`auth_exit` ends in the fault of its unlink. -/
def thread_step (env : Env) (tlds : Nat → thread_local_data) (st : State) :
    thread_op → Option State
  | thread_op.register t => some (fbt_bootstrap_thread env (st.as_thread tlds t))
  | thread_op.unregister t =>
      if (auth_exit env (st.as_thread tlds t) SYS_exit 0 0 0 0 0 0 0).unlink_fault then none
      else some (auth_exit env (st.as_thread tlds t) SYS_exit 0 0 0 0 0 0 0).st

/-- A sequence of steps, first step first. -/
def run_thread_ops (env : Env) (tlds : Nat → thread_local_data) :
    List thread_op → State → Option State
  | [], st => some st
  | op :: ops, st => (thread_step env tlds st op).bind (run_thread_ops env tlds ops)

/-- The set the specification names: the tlds registered and not yet
unregistered after a sequence of steps that starts with the set `live`. -/
def registered_not_unregistered : List thread_op → Finset Nat → Finset Nat
  | [], live => live
  | thread_op.register tld :: ops, live => registered_not_unregistered ops (insert tld live)
  | thread_op.unregister tld :: ops, live => registered_not_unregistered ops (live.erase tld)

/-- A sequence of register / unregister pairs: a tld is registered only
while it is not registered, and unregistered only while it is. -/
def paired : List thread_op → Finset Nat → Prop
  | [], _ => True
  | thread_op.register tld :: ops, live => tld ∉ live ∧ paired ops (insert tld live)
  | thread_op.unregister tld :: ops, live => tld ∈ live ∧ paired ops (live.erase tld)

/-! ## Reference notions and scenario data -/

/-- Some address lies in both half-open ranges `[s1, s1 + z1)` and
`[s2, s2 + z2)`: the set-intersection the overlap test is compared with. -/
def ranges_intersect (s1 z1 s2 z2 : Nat) : Prop :=
  ∃ x, x < WORD ∧ (s1 ≤ x ∧ x < s1 + z1) ∧ (s2 ≤ x ∧ x < s2 + z2)

/-- The structs at `p` and at `q` share no byte: each ends where the other
starts, or before. -/
def structs_apart (p q : Nat) : Prop :=
  p + sizeof_fbt_sigaction ≤ q ∨ q + sizeof_fbt_sigaction ≤ p

/-- The empty signal disposition. -/
def no_sigaction : fbt_sigaction := { sigaction := 0, mask := 0, flags := 0, restorer := 0 }

/-- Scenario state of the specification: T holds the one chunk
`{0x10000, 0x1000}`, V is empty, no call has been issued. -/
def scenario_state : State :=
  { tld := { chunk := [{ ptr := 0x10000, size := 0x1000 }], signals := fun _ => no_sigaction }
    retval := 0
    sigmem := fun _ => no_sigaction
    valid := []
    kernel_calls := [] }

/-- A build without runtime allocation; the kernel answers 0 to every call. -/
def scenario_env : Env :=
  { SECU_ALLOW_RUNTIME_ALLOC := false, sighandler := 0x5000, kernel := fun _ => 0 }

/-- A build with runtime allocation; the kernel answers every call with the
address `0x40000000`. -/
def jit_env : Env :=
  { SECU_ALLOW_RUNTIME_ALLOC := true, sighandler := 0x5000, kernel := fun _ => 0x40000000 }

/-- A state with empty T and V whose cell `*retval` holds 7. -/
def empty_state : State :=
  { tld := { chunk := [], signals := fun _ => no_sigaction }
    retval := 7
    sigmem := fun _ => no_sigaction
    valid := []
    kernel_calls := [] }

/-- The disposition recorded for signal 10 in `signal_state`. -/
def H_old : fbt_sigaction := { sigaction := 0x8048100, mask := 1, flags := 2, restorer := 3 }

/-- The disposition the guest keeps at address `0xbfff0000` in `signal_state`. -/
def H_new : fbt_sigaction := { sigaction := 0x8048200, mask := 4, flags := 5, restorer := 6 }

/-- A state whose table records `H_old` for signal 10 and whose guest memory
holds `H_new` at address `0xbfff0000`. -/
def signal_state : State :=
  { tld := { chunk := [], signals := fun i => if i = 10 then H_old else no_sigaction }
    retval := 7
    sigmem := fun p => if p = 0xbfff0000 then H_new else no_sigaction
    valid := []
    kernel_calls := [] }

/-- A kernel that rejects every call with the word that reads -4096. -/
def failing_env : Env :=
  { SECU_ALLOW_RUNTIME_ALLOC := false, sighandler := 0x5000, kernel := fun _ => WORD - 4096 }

/-- The assignments to `tld->syscall_table` in `fbt_init_syscalls`, in the
order of the source, without the call of `init_signal_handlers` (which writes
`tld->signals` only): the table `fbt_init_syscalls` leaves when it returns. -/
def init_table (b : Build) (tld : thread_local_data) : thread_local_data :=
  let tld := fill_table auth_fn.allow_syscall 0 (b.NR_syscalls + 1) tld
  let tld := fill_table auth_fn.deny_syscall (b.NR_syscalls + 1)
    (b.MAX_SYSCALLS_TABLE - (b.NR_syscalls + 1)) tld
  let tld := table_set tld SYS_ptrace auth_fn.deny_syscall
  let tld := table_set tld SYS_sigreturn auth_fn.deny_syscall
  let tld := table_set tld SYS_rt_sigreturn auth_fn.deny_syscall
  let tld :=
    match b.SYS_unused with
    | some (SYS_unused1, SYS_unused2, SYS_unused3) =>
        table_set (table_set (table_set tld SYS_unused1 auth_fn.deny_syscall)
          SYS_unused2 auth_fn.deny_syscall) SYS_unused3 auth_fn.deny_syscall
    | none => tld
  let tld :=
    match b.SYS_sys_setaltroot with
    | some SYS_sys_setaltroot => table_set tld SYS_sys_setaltroot auth_fn.deny_syscall
    | none => tld
  let tld := table_set tld SYS_execve auth_fn.auth_execve
  let tld := table_set tld SYS_mmap auth_fn.auth_mmap
  let tld := table_set tld SYS_mmap2 auth_fn.auth_mmap2
  let tld := table_set tld SYS_mprotect auth_fn.auth_mprotect
  let tld :=
    if b.HANDLE_SIGNALS then
      table_set (table_set (table_set tld SYS_signal auth_fn.auth_signal)
        SYS_sigaction auth_fn.auth_signal) SYS_rt_sigaction auth_fn.auth_signal
    else tld
  if b.HANDLE_THREADS then
    table_set (table_set (table_set tld SYS_clone auth_fn.auth_clone)
      SYS_exit auth_fn.auth_exit) SYS_exit_group auth_fn.auth_exit
  else tld

/-- The kernel accepts the three handlers a `SLEEP_ON_FAIL` build installs. -/
def installs_succeed (b : Build) (k : InitKernel) : Prop :=
  b.HANDLE_SIGNALS = true → b.SLEEP_ON_FAIL = true →
    k.install_fails 4 = false ∧ k.install_fails 7 = false ∧ k.install_fails 11 = false

/-- Every store of `fbt_init_syscalls` lands inside the array
`tld->syscall_table[MAX_SYSCALLS_TABLE]`: the first loop ends below the end of
the array and so does every index assigned after the loops. -/
def table_writes_in_bounds (b : Build) : Prop :=
  b.NR_syscalls < b.MAX_SYSCALLS_TABLE ∧ ∀ i ∈ overridden b, i < b.MAX_SYSCALLS_TABLE

/-- The numbers of the unused slots and of `setaltroot`, where the build
defines them, are not the number of a system call that gets an authorizer of
its own later in `fbt_init_syscalls`. -/
def distinct_numbers (b : Build) : Prop :=
  ∀ x ∈ (match b.SYS_unused with
         | some (SYS_unused1, SYS_unused2, SYS_unused3) => [SYS_unused1, SYS_unused2, SYS_unused3]
         | none => []) ++
        (match b.SYS_sys_setaltroot with
         | some SYS_sys_setaltroot => [SYS_sys_setaltroot]
         | none => []),
    x ∉ [SYS_execve, SYS_mmap, SYS_mmap2, SYS_mprotect, SYS_signal, SYS_sigaction,
         SYS_rt_sigaction, SYS_clone, SYS_exit, SYS_exit_group]

/-- An example build: all switches on, a table of 512 entries for 337
system calls, 64 signals, `SYS_unused1..3` at 222, 223, 251 and
`SYS_sys_setaltroot` at 285. -/
def example_build : Build :=
  { NR_syscalls := 337, MAX_SYSCALLS_TABLE := 512, MAX_NR_SIGNALS := 64,
    SYS_unused := some (222, 223, 251), SYS_sys_setaltroot := some 285,
    HANDLE_SIGNALS := true, HANDLE_THREADS := true, SLEEP_ON_FAIL := true,
    failhandler := 0x6000 }

/-- A kernel that reports no disposition and accepts every handler. -/
def example_init_kernel : InitKernel :=
  { old_disposition := fun _ => none, install_fails := fun _ => false }

/-- A state whose guest memory holds the environment array `["PATH=/bin"]` at
address `0xbfff2000`. -/
def execve_state : State :=
  { empty_state with envmem := fun p => if p = 0xbfff2000 then ["PATH=/bin"] else [] }

/-- The state of thread A, whose thread-local data is at `0xA000` and owns
the chunk `{0x10000, 0x1000}`, with the thread list `threads`. -/
def thread_A_state (threads : List Nat) : State :=
  { scenario_state with
    tld := { scenario_state.tld with addr := 0xA000 }
    retval := 7
    threads := threads }

/-- The state of thread B, whose thread-local data is at `0xB000`, with the
thread list `threads`. -/
def thread_B_state (threads : List Nat) : State :=
  { scenario_state with
    tld := { scenario_state.tld with addr := 0xB000 }
    retval := 7
    threads := threads }

/-! ## The interposed `dlclose` -/

/-- Source function `dlclose`: the body is `return 0;` after a trace line
that only a `DEBUG` build prints. The state is threaded through to say what
the call leaves behind. -/
def dlclose (st : State) (_handle : Nat) : Int × State :=
  (0, st)

/-! ## Scenario data of the thread and signal claims -/

/-- A kernel that comes back from `exit` and `exit_group`. -/
def returning_exit_env : Env :=
  { scenario_env with exit_returns := true }

/-- A kernel that answers every call with 4242; `fbt_init(NULL)` returns
thread-local data at `0xC000` whose bootstrap trampoline is at `0x7000`, and
`fbt_create_trampoline` returns `0x7100`. -/
def clone_env : Env :=
  { SECU_ALLOW_RUNTIME_ALLOC := false, sighandler := 0x5000, kernel := fun _ => 4242,
    fbt_init := { chunk := [], signals := fun _ => no_sigaction, addr := 0xC000,
                  bootstrap_thread_trampoline := 0x7000 },
    fbt_create_trampoline := fun _ _ _ => 0x7100 }

/-- The state of a thread whose last system call instruction is at
`0x8048000` and whose shared data is at `0x9000`. -/
def clone_state : State :=
  { scenario_state with
    tld := { scenario_state.tld with addr := 0xA000, shared_data := 0x9000,
                                     syscall_location := 0x8048000 }
    retval := 7 }

/-- A kernel that rejects every call with the word that reads -22
(`-EINVAL`). -/
def einval_env : Env :=
  { SECU_ALLOW_RUNTIME_ALLOC := false, sighandler := 0x5000, kernel := fun _ => WORD - 22 }

/-- A state like `signal_state` in which the guest keeps `H_new` at
`0xbfff0000` and a second copy of it at `0xbfff2000`. -/
def twice_state : State :=
  { signal_state with
    sigmem := fun p => if p = 0xbfff0000 ∨ p = 0xbfff2000 then H_new else no_sigaction }

/-- A state like `signal_state` in which the address `0x0804c0b0` is the
address of the slot `tld->signals[11]`. -/
def slot_alias_state : State :=
  { signal_state with
    target_at := fun p => if p = 0x0804c0b0 then Target.signal_slot 11 else Target.guest }

/-- A state like `signal_state` whose dispatch table denies `ptrace` and
allows every other system call, and in which `0x0804d068` is the address at
which the field `sigaction` of a struct is the entry
`tld->syscall_table[SYS_ptrace]`. -/
def table_alias_state : State :=
  { signal_state with
    tld := { signal_state.tld with
      syscall_table := fun k =>
        if k = SYS_ptrace then some auth_fn.deny_syscall else some auth_fn.allow_syscall }
    target_at := fun p =>
      if p = 0x0804d068 then
        Target.translator (fun f => if f = sigfield.sigaction then some SYS_ptrace else none)
      else Target.guest }

/-- A build in which the compiler chose `ebx` for the operand `"r"(arg1)` of
the exit sequence. -/
def ebx_env : Env :=
  { scenario_env with exit_reg := Reg.ebx }

/-- Thread-local data for the thread at any address: the data of
`scenario_state`. -/
def scenario_tlds : Nat → thread_local_data := fun _ => scenario_state.tld

/-! ## Lemmas on the chunk walk and the overlap test -/

theorem walk_chunks_ok (st : State) (msg : String) (s z : Nat) (T : List mem_info)
    (h : ∀ c ∈ T, OVERLAPPING_REGIONS s z c.ptr c.size = false) :
    walk_chunks st msg s z T = Except.ok () := by
  induction T with
  | nil => rfl
  | cons c T ih =>
    have hc := h c (List.mem_cons_self c T)
    have ht := ih (fun d hd => h d (List.mem_cons_of_mem c hd))
    simp [walk_chunks, hc, ht]

theorem walk_chunks_abort (st : State) (msg : String) (s z : Nat) (T : List mem_info)
    (h : ∃ c ∈ T, OVERLAPPING_REGIONS s z c.ptr c.size = true) :
    walk_chunks st msg s z T = Except.error (msg, st) := by
  induction T with
  | nil => simp at h
  | cons c T ih =>
    by_cases hc : OVERLAPPING_REGIONS s z c.ptr c.size = true
    · simp [walk_chunks, hc, fbt_suicide_str]
      rfl
    · obtain ⟨d, hd, hov⟩ := h
      rcases List.mem_cons.mp hd with rfl | hd
      · exact absurd hov hc
      · have ht := ih ⟨d, hd, hov⟩
        simp [walk_chunks, hc, ht]

theorem auth_mmap_unfold (env : Env) (st : State) (nr a1 a2 a3 a4 a5 a6 sy : Nat) :
    auth_mmap env st nr a1 a2 a3 a4 a5 a6 sy =
      if nr ≠ SYS_mmap then
        Except.error ("Invalid system call number in mmap (fbt_syscall.c).", st)
      else if env.SECU_ALLOW_RUNTIME_ALLOC ∧ a3 &&& PROT_EXEC ≠ 0 ∧ a4 &&& MAP_ANONYMOUS ≠ 0 then
        Except.ok (SYSCALL_AUTH_FAKE,
          fbt_memprotect_add_valid
            (fbt_syscall env st (KCall.mmap a1 a2 a3 (a4 &&& wnot MAP_FIXED) a5 a6)).2
            (fbt_syscall env st (KCall.mmap a1 a2 a3 (a4 &&& wnot MAP_FIXED) a5 a6)).1 a2)
      else if a1 ≠ 0 then
        (walk_chunks st "Application tried to mmap internal BT data! (fbt_syscall.c)\n"
          a1 a2 st.tld.chunk).map (fun _ => (SYSCALL_AUTH_GRANTED, st))
      else Except.ok (SYSCALL_AUTH_GRANTED, st) := by
  unfold auth_mmap
  by_cases h1 : nr = SYS_mmap
  · by_cases h2 : env.SECU_ALLOW_RUNTIME_ALLOC ∧ a3 &&& PROT_EXEC ≠ 0 ∧ a4 &&& MAP_ANONYMOUS ≠ 0
    · simp [h1, h2, fbt_syscall]
      rfl
    · by_cases h3 : a1 = 0
      · simp [h1, h2, h3]
        rfl
      · simp only [h1, h2, h3]
        cases hw : walk_chunks st "Application tried to mmap internal BT data! (fbt_syscall.c)\n" a1 a2 st.tld.chunk <;> simp [hw] <;> rfl
  · simp [h1, fbt_suicide_str]
    rfl

theorem overlap_iff_intersect (s1 z1 s2 z2 : Nat) (h1 : s1 + z1 < WORD) (h2 : s2 + z2 < WORD) :
    OVERLAPPING_REGIONS s1 z1 s2 z2 = true ↔ ranges_intersect s1 z1 s2 z2 := by
  unfold OVERLAPPING_REGIONS ranges_intersect
  rw [Nat.mod_eq_of_lt h1, Nat.mod_eq_of_lt h2, decide_eq_true_iff]
  constructor
  · intro h
    exact ⟨max s1 s2, by omega, ⟨by omega, by omega⟩, ⟨by omega, by omega⟩⟩
  · rintro ⟨x, _, ⟨ha, hb⟩, ⟨hc, hd⟩⟩
    omega


theorem auth_signal_signal_eq (env : Env) (st : State) (a1 a2 a3 a4 a5 a6 sy : Nat) :
    auth_signal env st SYS_signal a1 a2 a3 a4 a5 a6 sy =
      Except.ok (SYSCALL_AUTH_FAKE,
        { st with
          tld := { st.tld with signals := (Function.update st.tld.signals a1
                      { sigaction := a2, mask := 0, flags := 0, restorer := 0 }) }
          retval :=
            (if env.kernel (KCall.signal a1 (if a2 = SIG_IGN ∨ a2 = SIG_DFL then a2 else env.sighandler))
                % WORD < WORD - 129 then (st.tld.signals a1).sigaction
            else env.kernel (KCall.signal a1
              (if a2 = SIG_IGN ∨ a2 = SIG_DFL then a2 else env.sighandler)) % WORD)
          sigmem := st.sigmem
          valid := st.valid
          kernel_calls := st.kernel_calls ++
            [KCall.signal a1 (if a2 = SIG_IGN ∨ a2 = SIG_DFL then a2 else env.sighandler)] }) := by
  unfold auth_signal
  simp only [State.set_signal, fbt_syscall, Function.update_same, Function.update_idem,
    ne_eq, not_true_eq_false, if_false, if_true]
  by_cases h : a2 = SIG_IGN ∨ a2 = SIG_DFL
  · simp only [h, if_true]
    split_ifs <;> rfl
  · simp only [h, if_false]
    split_ifs <;> rfl

theorem auth_sigaction_eq (env : Env) (st : State) (nr a1 a2 a3 a4 a5 a6 sy : Nat)
    (hnr : nr = SYS_sigaction ∨ nr = SYS_rt_sigaction)
    (h2t : a2 ≠ 0 → st.target_at a2 = Target.guest)
    (h3t : a3 ≠ 0 → st.target_at a3 = Target.guest) :
    auth_signal env st nr a1 a2 a3 a4 a5 a6 sy =
      Except.ok (SYSCALL_AUTH_FAKE,
        { st with
          tld := { st.tld with signals :=
                    (if a2 ≠ 0 then Function.update st.tld.signals a1
                      ((if a3 ≠ 0 then Function.update st.sigmem a3 (st.tld.signals a1)
                        else st.sigmem) a2)
                    else st.tld.signals) }
          retval :=
            (if a2 ≠ 0 then
              env.kernel ((if nr = SYS_sigaction then KCall.sigaction else KCall.rt_sigaction) a1
                ((if a3 ≠ 0 then Function.update st.sigmem a3 (st.tld.signals a1)
                  else st.sigmem) a2)) % WORD
            else 0)
          sigmem := (if a3 ≠ 0 then Function.update st.sigmem a3 (st.tld.signals a1) else st.sigmem)
          valid := st.valid
          kernel_calls :=
            (if a2 ≠ 0 then st.kernel_calls ++
              [(if nr = SYS_sigaction then KCall.sigaction else KCall.rt_sigaction) a1
                ((if a3 ≠ 0 then Function.update st.sigmem a3 (st.tld.signals a1)
                  else st.sigmem) a2)]
            else st.kernel_calls) }) := by
  have h48 : nr ≠ SYS_signal := by
    rcases hnr with h | h <;> rw [h] <;> decide
  unfold auth_signal
  by_cases h2 : a2 = 0 <;> by_cases h3 : a3 = 0
  · subst h2 h3
    rcases hnr with h | h <;> subst h <;>
      simp [SYS_sigaction, SYS_signal, SYS_rt_sigaction] <;> rfl
  · subst h2
    have e3 := h3t h3
    rcases hnr with h | h <;> subst h <;>
      simp [h3, e3, State.store_field, State.set_sigmem, fbt_sigaction.set,
        SYS_sigaction, SYS_signal, SYS_rt_sigaction] <;> rfl
  · subst h3
    have e2 := h2t h2
    rcases hnr with h | h <;> subst h <;>
      simp [h2, e2, State.load_field, State.set_signal, fbt_sigaction.get, fbt_syscall,
        SYS_sigaction, SYS_signal, SYS_rt_sigaction] <;> rfl
  · have e2 := h2t h2
    have e3 := h3t h3
    rcases hnr with h | h <;> subst h <;>
      simp [h2, h3, e2, e3, State.store_field, State.load_field, State.set_sigmem,
        State.set_signal, fbt_sigaction.set, fbt_sigaction.get, fbt_syscall,
        SYS_sigaction, SYS_signal, SYS_rt_sigaction] <;> rfl

theorem auth_mmap2_unfold (env : Env) (st : State) (nr a1 a2 a3 a4 a5 a6 sy : Nat) :
    auth_mmap2 env st nr a1 a2 a3 a4 a5 a6 sy =
      if nr ≠ SYS_mmap2 then
        Except.error ("Invalid system call number in mmap (fbt_syscall.c).", st)
      else if env.SECU_ALLOW_RUNTIME_ALLOC ∧ a3 &&& PROT_EXEC ≠ 0 ∧ a4 &&& MAP_ANONYMOUS ≠ 0 then
        Except.ok (SYSCALL_AUTH_FAKE,
          fbt_memprotect_add_valid
            (fbt_syscall env st (KCall.mmap2 a1 a2 a3 (a4 &&& wnot MAP_FIXED) a5 a6)).2
            (fbt_syscall env st (KCall.mmap2 a1 a2 a3 (a4 &&& wnot MAP_FIXED) a5 a6)).1 a2)
      else if a1 ≠ 0 then
        (walk_chunks st "Application tried to mmap internal BT data! (fbt_syscall.c)\n"
          a1 a2 st.tld.chunk).map (fun _ => (SYSCALL_AUTH_GRANTED, st))
      else Except.ok (SYSCALL_AUTH_GRANTED, st) := by
  unfold auth_mmap2
  by_cases h1 : nr = SYS_mmap2
  · by_cases h2 : env.SECU_ALLOW_RUNTIME_ALLOC ∧ a3 &&& PROT_EXEC ≠ 0 ∧ a4 &&& MAP_ANONYMOUS ≠ 0
    · simp [h1, h2, fbt_syscall]
      rfl
    · by_cases h3 : a1 = 0
      · simp [h1, h2, h3]
        rfl
      · simp only [h1, h2, h3]
        cases hw : walk_chunks st "Application tried to mmap internal BT data! (fbt_syscall.c)\n" a1 a2 st.tld.chunk <;> simp [hw] <;> rfl
  · simp [h1, fbt_suicide_str]
    rfl

theorem auth_mprotect_unfold (env : Env) (st : State) (nr a1 a2 a3 a4 a5 a6 sy : Nat) :
    auth_mprotect env st nr a1 a2 a3 a4 a5 a6 sy =
      if nr ≠ SYS_mprotect then
        Except.error ("Invalid system call number in mprotect (fbt_syscall.c).", st)
      else
        (walk_chunks st "Application tried to remap internal BT data! (fbt_syscall.c)\n"
          a1 a2 st.tld.chunk).map (fun _ =>
            (SYSCALL_AUTH_GRANTED,
              if env.SECU_ALLOW_RUNTIME_ALLOC ∧ a3 &&& PROT_EXEC ≠ 0 then
                fbt_memprotect_add_valid st a1 a2
              else st)) := by
  unfold auth_mprotect
  by_cases h1 : nr = SYS_mprotect
  · simp only [h1]
    cases hw : walk_chunks st "Application tried to remap internal BT data! (fbt_syscall.c)\n" a1 a2 st.tld.chunk
    · simp [hw]
      rfl
    · by_cases h2 : env.SECU_ALLOW_RUNTIME_ALLOC ∧ a3 &&& PROT_EXEC ≠ 0
      · simp [hw, h2]
        rfl
      · simp [hw, h2]
        rfl
  · simp [h1, fbt_suicide_str]
    rfl

theorem walk_chunks_ok_iff (st : State) (msg : String) (s z : Nat) (T : List mem_info) :
    walk_chunks st msg s z T = Except.ok () ↔
      ∀ c ∈ T, OVERLAPPING_REGIONS s z c.ptr c.size = false := by
  constructor
  · intro hw c hc
    by_contra hov
    have habort := walk_chunks_abort st msg s z T ⟨c, hc, by simpa using hov⟩
    rw [hw] at habort
    cases habort
  · exact walk_chunks_ok st msg s z T

theorem walk_map_granted (st : State) (msg : String) (s z : Nat) (T : List mem_info)
    (v : syscall_auth_response × State) (w : syscall_auth_response × State)
    (h : (walk_chunks st msg s z T).map (fun _ => v) = Except.ok w) :
    ∀ c ∈ T, OVERLAPPING_REGIONS s z c.ptr c.size = false := by
  cases hw : walk_chunks st msg s z T with
  | error e => rw [hw] at h; cases h
  | ok u => exact (walk_chunks_ok_iff st msg s z T).mp hw

/-- C1 (amended). Whenever `auth_mprotect` returns GRANTED, and whenever
`auth_mmap` or `auth_mmap2` returns GRANTED for a non-null start `arg1`, no
chunk of T (`tld->chunk`) passes the authorizers' overlap test against the
requested range `(arg1, arg2)`; hence, for a request and a chunk that both end
below `2^32`, no address lies in both. -/
theorem granted_range_clear_of_chunks (env : Env) (st st' : State)
    (nr a1 a2 a3 a4 a5 a6 sy : Nat)
    (h : (a1 ≠ 0 ∧
          (auth_mmap env st nr a1 a2 a3 a4 a5 a6 sy = Except.ok (SYSCALL_AUTH_GRANTED, st') ∨
           auth_mmap2 env st nr a1 a2 a3 a4 a5 a6 sy = Except.ok (SYSCALL_AUTH_GRANTED, st'))) ∨
         auth_mprotect env st nr a1 a2 a3 a4 a5 a6 sy = Except.ok (SYSCALL_AUTH_GRANTED, st')) :
    ∀ c ∈ st.tld.chunk,
      OVERLAPPING_REGIONS a1 a2 c.ptr c.size = false ∧
      (a1 + a2 < WORD → c.ptr + c.size < WORD → ¬ ranges_intersect a1 a2 c.ptr c.size) := by
  have key : ∀ c ∈ st.tld.chunk, OVERLAPPING_REGIONS a1 a2 c.ptr c.size = false := by
    rcases h with ⟨hne, h | h⟩ | h
    · rw [auth_mmap_unfold] at h
      split_ifs at h <;> first | cases h | exact walk_map_granted _ _ _ _ _ _ _ h
    · rw [auth_mmap2_unfold] at h
      split_ifs at h <;> first | cases h | exact walk_map_granted _ _ _ _ _ _ _ h
    · rw [auth_mprotect_unfold] at h
      split_ifs at h <;> first | cases h | exact walk_map_granted _ _ _ _ _ _ _ h
  intro c hc
  refine ⟨key c hc, fun h1 h2 hi => ?_⟩
  have := (overlap_iff_intersect a1 a2 c.ptr c.size h1 h2).mpr hi
  rw [key c hc] at this
  cases this

/-- Witness for C1 (amended): the benign `mmap` of the specification,
`arg1 = 0x20000`, `arg2 = 0x1000` against `T = {0x10000, 0x1000}`. -/
theorem granted_range_clear_of_chunks_witness :
    (0x20000 ≠ 0 ∧
      (auth_mmap scenario_env scenario_state SYS_mmap 0x20000 0x1000 3 32 0 0 0
          = Except.ok (SYSCALL_AUTH_GRANTED, scenario_state) ∨
       auth_mmap2 scenario_env scenario_state SYS_mmap 0x20000 0x1000 3 32 0 0 0
          = Except.ok (SYSCALL_AUTH_GRANTED, scenario_state))) ∧
    ∀ c ∈ scenario_state.tld.chunk,
      OVERLAPPING_REGIONS 0x20000 0x1000 c.ptr c.size = false ∧
      (0x20000 + 0x1000 < WORD → c.ptr + c.size < WORD →
        ¬ ranges_intersect 0x20000 0x1000 c.ptr c.size) :=
  ⟨⟨by decide, Or.inl rfl⟩,
   granted_range_clear_of_chunks scenario_env scenario_state scenario_state
     SYS_mmap 0x20000 0x1000 3 32 0 0 0 (Or.inl ⟨by decide, Or.inl rfl⟩)⟩

/-- C1 (counterexample). With `T = {0x10000, 0x1000}` the call
`auth_mmap(SYS_mmap, arg1 = 0, arg2 = 0x20000, ...)` returns GRANTED although
the requested range `[0, 0x20000)` overlaps the chunk: the overlap test holds
and address `0x10000` lies in both ranges. -/
theorem granted_null_start_overlaps_chunk :
    auth_mmap scenario_env scenario_state SYS_mmap 0 0x20000 3 32 0 0 0
      = Except.ok (SYSCALL_AUTH_GRANTED, scenario_state) ∧
    ∃ c ∈ scenario_state.tld.chunk,
      OVERLAPPING_REGIONS 0 0x20000 c.ptr c.size = true ∧
      ranges_intersect 0 0x20000 c.ptr c.size :=
  ⟨rfl, ⟨{ ptr := 0x10000, size := 0x1000 }, List.mem_singleton.mpr rfl, by decide,
    ⟨0x10000, by decide, ⟨by decide, by decide⟩, ⟨by decide, by decide⟩⟩⟩⟩

/-- C2 (counterexample). With `T = {0x10000, 0x1000}` and no runtime
allocation, the request `arg1 = 0x10000`, `arg2 = 0xFFFF0000` ends at `2^32`,
which wraps to 0: the overlap test is false for the chunk, `auth_mmap` and
`auth_mmap2` return GRANTED, and yet the address `0x10000` lies in the
requested range and in the chunk. -/
theorem auth_mmap_grants_wrapped_request :
    (0x10000 ≠ 0 ∧
      ¬ (scenario_env.SECU_ALLOW_RUNTIME_ALLOC ∧ 3 &&& PROT_EXEC ≠ 0 ∧ 32 &&& MAP_ANONYMOUS ≠ 0)) ∧
    auth_mmap scenario_env scenario_state SYS_mmap 0x10000 0xFFFF0000 3 32 0 0 0
      = Except.ok (SYSCALL_AUTH_GRANTED, scenario_state) ∧
    auth_mmap2 scenario_env scenario_state SYS_mmap2 0x10000 0xFFFF0000 3 32 0 0 0
      = Except.ok (SYSCALL_AUTH_GRANTED, scenario_state) ∧
    ∃ c ∈ scenario_state.tld.chunk, ranges_intersect 0x10000 0xFFFF0000 c.ptr c.size :=
  ⟨⟨by decide, by decide⟩, rfl, rfl,
    ⟨{ ptr := 0x10000, size := 0x1000 }, List.mem_singleton.mpr rfl,
      ⟨0x10000, by decide, ⟨by decide, by decide⟩, ⟨by decide, by decide⟩⟩⟩⟩

/-- C2 (amended). For `auth_mmap` and `auth_mmap2` called with their own
syscall number and a non-null start `arg1`, outside the runtime-allocation
branch, for a request and chunks that end below `2^32`: if some address lies
in `[arg1, arg1 + arg2)` and in a chunk of T the call ends in the fatal abort
"Application tried to mmap internal BT data!" with the state as it was, and
if no chunk of T shares an address with the request the call returns GRANTED
and leaves the whole state, V and `*retval` included, as it was. -/
theorem auth_mmap_verdict_below_wrap (env : Env) (st : State) (a1 a2 a3 a4 a5 a6 sy : Nat)
    (hstart : a1 ≠ 0)
    (hjit : ¬ (env.SECU_ALLOW_RUNTIME_ALLOC ∧ a3 &&& PROT_EXEC ≠ 0 ∧ a4 &&& MAP_ANONYMOUS ≠ 0))
    (hreq : a1 + a2 < WORD) (hT : ∀ c ∈ st.tld.chunk, c.ptr + c.size < WORD) :
    ((∃ c ∈ st.tld.chunk, ranges_intersect a1 a2 c.ptr c.size) →
      auth_mmap env st SYS_mmap a1 a2 a3 a4 a5 a6 sy
        = Except.error ("Application tried to mmap internal BT data! (fbt_syscall.c)\n", st) ∧
      auth_mmap2 env st SYS_mmap2 a1 a2 a3 a4 a5 a6 sy
        = Except.error ("Application tried to mmap internal BT data! (fbt_syscall.c)\n", st)) ∧
    ((∀ c ∈ st.tld.chunk, ¬ ranges_intersect a1 a2 c.ptr c.size) →
      auth_mmap env st SYS_mmap a1 a2 a3 a4 a5 a6 sy = Except.ok (SYSCALL_AUTH_GRANTED, st) ∧
      auth_mmap2 env st SYS_mmap2 a1 a2 a3 a4 a5 a6 sy = Except.ok (SYSCALL_AUTH_GRANTED, st)) := by
  have e1 : auth_mmap env st SYS_mmap a1 a2 a3 a4 a5 a6 sy =
      (walk_chunks st "Application tried to mmap internal BT data! (fbt_syscall.c)\n"
        a1 a2 st.tld.chunk).map (fun _ => (SYSCALL_AUTH_GRANTED, st)) := by
    rw [auth_mmap_unfold, if_neg (fun hn => hn rfl), if_neg hjit, if_pos hstart]
  have e2 : auth_mmap2 env st SYS_mmap2 a1 a2 a3 a4 a5 a6 sy =
      (walk_chunks st "Application tried to mmap internal BT data! (fbt_syscall.c)\n"
        a1 a2 st.tld.chunk).map (fun _ => (SYSCALL_AUTH_GRANTED, st)) := by
    rw [auth_mmap2_unfold, if_neg (fun hn => hn rfl), if_neg hjit, if_pos hstart]
  rw [e1, e2]
  constructor
  · rintro ⟨c, hc, hi⟩
    have hov : ∃ c ∈ st.tld.chunk, OVERLAPPING_REGIONS a1 a2 c.ptr c.size = true :=
      ⟨c, hc, (overlap_iff_intersect a1 a2 c.ptr c.size hreq (hT c hc)).mpr hi⟩
    rw [walk_chunks_abort st _ a1 a2 st.tld.chunk hov]
    exact ⟨rfl, rfl⟩
  · intro h
    have hno : ∀ c ∈ st.tld.chunk, OVERLAPPING_REGIONS a1 a2 c.ptr c.size = false := by
      intro c hc
      by_contra hov
      exact h c hc ((overlap_iff_intersect a1 a2 c.ptr c.size hreq (hT c hc)).mp
        (by simpa using hov))
    rw [walk_chunks_ok st _ a1 a2 st.tld.chunk hno]
    exact ⟨rfl, rfl⟩

/-- Witness for C2 (amended): the colliding and the benign `mmap` of the
specification against `T = {0x10000, 0x1000}`. -/
theorem auth_mmap_verdict_below_wrap_witness :
    (auth_mmap scenario_env scenario_state SYS_mmap 0x10500 0x100 3 32 0 0 0
        = Except.error ("Application tried to mmap internal BT data! (fbt_syscall.c)\n",
            scenario_state) ∧
      auth_mmap2 scenario_env scenario_state SYS_mmap2 0x10500 0x100 3 32 0 0 0
        = Except.error ("Application tried to mmap internal BT data! (fbt_syscall.c)\n",
            scenario_state)) ∧
    (auth_mmap scenario_env scenario_state SYS_mmap 0x20000 0x1000 3 32 0 0 0
        = Except.ok (SYSCALL_AUTH_GRANTED, scenario_state) ∧
      auth_mmap2 scenario_env scenario_state SYS_mmap2 0x20000 0x1000 3 32 0 0 0
        = Except.ok (SYSCALL_AUTH_GRANTED, scenario_state)) :=
  ⟨(auth_mmap_verdict_below_wrap scenario_env scenario_state 0x10500 0x100 3 32 0 0 0
      (by decide) (by decide) (by decide)
      (fun c hc => by rw [List.mem_singleton.mp hc]; decide)).1
      ⟨{ ptr := 0x10000, size := 0x1000 }, List.mem_singleton.mpr rfl,
        ⟨0x10500, by decide, ⟨by decide, by decide⟩, ⟨by decide, by decide⟩⟩⟩,
   (auth_mmap_verdict_below_wrap scenario_env scenario_state 0x20000 0x1000 3 32 0 0 0
      (by decide) (by decide) (by decide)
      (fun c hc => by rw [List.mem_singleton.mp hc]; decide)).2
      (fun c hc hi => by
        rw [List.mem_singleton.mp hc] at hi
        obtain ⟨x, _, ⟨h1, h2⟩, ⟨h3, h4⟩⟩ := hi
        simp only at h3 h4
        omega)⟩

/-- C3 (amended). For two ranges that both end below `2^32`
(`start + size < 2^32`, zero-length ranges included), the overlap test
`max(a.start, b.start) < min(a.start + a.size, b.start + b.size)` on machine
words holds exactly when some address lies in both half-open ranges. -/
theorem overlap_test_agrees_below_wrap (s1 z1 s2 z2 : Nat)
    (h1 : s1 + z1 < WORD) (h2 : s2 + z2 < WORD) :
    OVERLAPPING_REGIONS s1 z1 s2 z2 = true ↔ ranges_intersect s1 z1 s2 z2 :=
  overlap_iff_intersect s1 z1 s2 z2 h1 h2

/-- Witness for C3 (amended): a chunk and a request inside it, and a
zero-length range inside a chunk. -/
theorem overlap_test_agrees_below_wrap_witness :
    (0x10500 + 0x100 < WORD ∧ 0x10000 + 0x1000 < WORD) ∧
    (OVERLAPPING_REGIONS 0x10500 0x100 0x10000 0x1000 = true ↔
      ranges_intersect 0x10500 0x100 0x10000 0x1000) ∧
    OVERLAPPING_REGIONS 0x10500 0x100 0x10000 0x1000 = true ∧
    ¬ ranges_intersect 0x10500 0 0x10000 0x1000 :=
  ⟨⟨by decide, by decide⟩,
   overlap_test_agrees_below_wrap 0x10500 0x100 0x10000 0x1000 (by decide) (by decide),
   by decide,
   fun hi => Bool.false_ne_true
     ((show OVERLAPPING_REGIONS 0x10500 0 0x10000 0x1000 = false by decide).symm.trans
       ((overlap_iff_intersect 0x10500 0 0x10000 0x1000 (by decide) (by decide)).mpr hi))⟩

/-- C3 (counterexample). The range `{start = 0xFFFFF000, size = 0x2000}`
ends past `2^32`, so its end wraps to `0x1000`; the overlap test against
`{start = 0xFFFFF000, size = 0x100}` is false although address `0xFFFFF000`
lies in both ranges. -/
theorem overlap_test_misses_wrapped_range :
    OVERLAPPING_REGIONS 0xFFFFF000 0x2000 0xFFFFF000 0x100 = false ∧
    ranges_intersect 0xFFFFF000 0x2000 0xFFFFF000 0x100 :=
  ⟨by decide, ⟨0xFFFFF000, by decide, ⟨by decide, by decide⟩, ⟨by decide, by decide⟩⟩⟩

/-- C4 (the code at the failing input). Build with runtime allocation, T
empty, `*retval` holding 7, and the kernel answering the mapping with
`0x40000000`: `auth_mmap` and `auth_mmap2` called with
`arg3 = PROT_READ|PROT_EXEC`, `arg4 = MAP_ANONYMOUS|MAP_FIXED` issue the
mapping with flags `MAP_ANONYMOUS` alone, return EMULATED and admit
`{0x40000000, 0x1000}` to V, but the cell `*retval` still holds 7: the
mapped address was stored in the local pointer variable `retval`. -/
theorem auth_mmap_jit_leaves_retval_cell :
    (∃ st', auth_mmap jit_env empty_state SYS_mmap 0x30000 0x1000 5 48 0xFFFFFFFF 0 0
        = Except.ok (SYSCALL_AUTH_FAKE, st') ∧
      st'.kernel_calls = [KCall.mmap 0x30000 0x1000 5 MAP_ANONYMOUS 0xFFFFFFFF 0] ∧
      st'.valid = [{ ptr := 0x40000000, size := 0x1000 }] ∧
      st'.retval = 7 ∧ st'.retval ≠ jit_env.kernel (KCall.mmap 0x30000 0x1000 5 32 0xFFFFFFFF 0)) ∧
    (∃ st', auth_mmap2 jit_env empty_state SYS_mmap2 0x30000 0x1000 5 48 0xFFFFFFFF 0 0
        = Except.ok (SYSCALL_AUTH_FAKE, st') ∧
      st'.kernel_calls = [KCall.mmap2 0x30000 0x1000 5 MAP_ANONYMOUS 0xFFFFFFFF 0] ∧
      st'.valid = [{ ptr := 0x40000000, size := 0x1000 }] ∧
      st'.retval = 7 ∧ st'.retval ≠ jit_env.kernel (KCall.mmap2 0x30000 0x1000 5 32 0xFFFFFFFF 0)) :=
  ⟨⟨_, rfl, rfl, rfl, rfl, by decide⟩, ⟨_, rfl, rfl, rfl, rfl, by decide⟩⟩

/-- C5. For `auth_mprotect` called with `SYS_mprotect` on a range that passes
the overlap test against no chunk of T, the verdict is GRANTED and the state is
left as it was, `*retval` included, except that in a build with runtime
allocation a protection with `PROT_EXEC` appends exactly `{arg1, arg2}` to V. -/
theorem auth_mprotect_granted (env : Env) (st : State) (a1 a2 a3 a4 a5 a6 sy : Nat)
    (h : ∀ c ∈ st.tld.chunk, OVERLAPPING_REGIONS a1 a2 c.ptr c.size = false) :
    auth_mprotect env st SYS_mprotect a1 a2 a3 a4 a5 a6 sy =
      Except.ok (SYSCALL_AUTH_GRANTED,
        if env.SECU_ALLOW_RUNTIME_ALLOC ∧ a3 &&& PROT_EXEC ≠ 0 then
          { st with valid := st.valid ++ [{ ptr := a1, size := a2 }] }
        else st) := by
  rw [auth_mprotect_unfold, walk_chunks_ok st _ a1 a2 st.tld.chunk h]
  simp only [ne_eq, not_true_eq_false, if_false]
  rfl

/-- Witness for C5: `mprotect(0x20000, 0x1000, PROT_READ|PROT_EXEC)` against
`T = {0x10000, 0x1000}` in a build with runtime allocation. -/
theorem auth_mprotect_granted_witness :
    (∀ c ∈ scenario_state.tld.chunk, OVERLAPPING_REGIONS 0x20000 0x1000 c.ptr c.size = false) ∧
    auth_mprotect jit_env scenario_state SYS_mprotect 0x20000 0x1000 5 0 0 0 0 =
      Except.ok (SYSCALL_AUTH_GRANTED,
        if jit_env.SECU_ALLOW_RUNTIME_ALLOC ∧ 5 &&& PROT_EXEC ≠ 0 then
          { scenario_state with
            valid := scenario_state.valid ++ [{ ptr := 0x20000, size := 0x1000 }] }
        else scenario_state) :=
  ⟨fun c hc => by rw [List.mem_singleton.mp hc]; decide,
   auth_mprotect_granted jit_env scenario_state 0x20000 0x1000 5 0 0 0 0
     (fun c hc => by rw [List.mem_singleton.mp hc]; decide)⟩

/-- C6 (the code at the failing input). Slot 10 records `H_old` and the guest
passes a new struct `H_new` at `0xbfff0000` with a null old pointer: for
`sigaction` and for `rt_sigaction` the one call that reaches the kernel
carries the table slot, whose handler is the guest's `H_new.sigaction`, not
the translator's `sighandler`. -/
theorem sigaction_hands_guest_handler_to_kernel :
    (∃ st', auth_signal scenario_env signal_state SYS_sigaction 10 0xbfff0000 0 0 0 0 0
        = Except.ok (SYSCALL_AUTH_FAKE, st') ∧
      st'.kernel_calls = [KCall.sigaction 10 H_new] ∧
      st'.kernel_calls.map KCall.handler = [some H_new.sigaction] ∧
      st'.tld.signals 10 = H_new) ∧
    (∃ st', auth_signal scenario_env signal_state SYS_rt_sigaction 10 0xbfff0000 0 0 0 0 0
        = Except.ok (SYSCALL_AUTH_FAKE, st') ∧
      st'.kernel_calls = [KCall.rt_sigaction 10 H_new] ∧
      st'.kernel_calls.map KCall.handler = [some H_new.sigaction] ∧
      st'.tld.signals 10 = H_new) ∧
    H_new.sigaction ≠ scenario_env.sighandler :=
  ⟨⟨_, rfl, rfl, rfl, rfl⟩, ⟨_, rfl, rfl, rfl, rfl⟩, by decide⟩

theorem structs_apart_ne (p q : Nat) (h : structs_apart p q) : p ≠ q := by
  unfold structs_apart sizeof_fbt_sigaction at h
  omega

/-- For `sigaction` / `rt_sigaction` with non-null old and new pointers to
structs in guest memory that lie apart, the old struct receives the record
slot `arg1` held before the call and the slot ends holding the record the
guest passed as new struct. -/
theorem sigaction_old_then_new (env : Env) (st : State) (nr a1 a2 a3 a4 a5 a6 sy : Nat)
    (hnr : nr = SYS_sigaction ∨ nr = SYS_rt_sigaction)
    (h2 : a2 ≠ 0) (h3 : a3 ≠ 0)
    (h2t : st.target_at a2 = Target.guest) (h3t : st.target_at a3 = Target.guest)
    (hap : structs_apart a2 a3) :
    ∃ st', auth_signal env st nr a1 a2 a3 a4 a5 a6 sy = Except.ok (SYSCALL_AUTH_FAKE, st') ∧
      st'.sigmem a3 = st.tld.signals a1 ∧ st'.tld.signals a1 = st.sigmem a2 := by
  have hne := structs_apart_ne a2 a3 hap
  refine ⟨_, auth_sigaction_eq env st nr a1 a2 a3 a4 a5 a6 sy hnr (fun _ => h2t) (fun _ => h3t),
    ?_, ?_⟩
  · simp [h3]
  · simp [h2, h3, Function.update_noteq hne]

/-- C7 (the code at the failing input). Slot 10 records `H_old`, the guest
keeps `H_new` at `0xbfff0000` and passes that one address as new and as old
pointer: the old struct receives `H_old`, and slot 10 ends holding `H_old`
again, not the `H_new` the guest passed: the new struct is read after the old
record was written over it. -/
theorem sigaction_aliased_pointers_lose_new_struct :
    signal_state.tld.signals 10 = H_old ∧ signal_state.sigmem 0xbfff0000 = H_new ∧
    ∃ st', auth_signal scenario_env signal_state SYS_sigaction 10 0xbfff0000 0xbfff0000 0 0 0 0
        = Except.ok (SYSCALL_AUTH_FAKE, st') ∧
      st'.sigmem 0xbfff0000 = H_old ∧
      st'.tld.signals 10 = H_old ∧
      st'.tld.signals 10 ≠ H_new :=
  ⟨rfl, rfl, _, rfl, rfl, rfl, by decide⟩

/-- C8 (the code at the failing input). Slot 10 records `H_old`; the guest
installs `H_new` with `sigaction`, passing the address of its struct as the
new and as the old pointer, and then installs `H_new` again from a second
copy, with an old pointer: the second call reports `H_old`, not the `H_new`
the first call was given. The first call wrote `H_old` over the new struct
before it read it. -/
theorem sigaction_twice_aliased_reports_old :
    twice_state.tld.signals 10 = H_old ∧ twice_state.sigmem 0xbfff0000 = H_new ∧
    ∃ st1 st2,
      auth_signal scenario_env twice_state SYS_sigaction 10 0xbfff0000 0xbfff0000 0 0 0 0
        = Except.ok (SYSCALL_AUTH_FAKE, st1) ∧
      st1.sigmem 0xbfff2000 = H_new ∧
      auth_signal scenario_env st1 SYS_sigaction 10 0xbfff2000 0xbfff1000 0 0 0 0
        = Except.ok (SYSCALL_AUTH_FAKE, st2) ∧
      st2.sigmem 0xbfff1000 = H_old ∧ st2.sigmem 0xbfff1000 ≠ H_new :=
  ⟨rfl, rfl, _, _, rfl, rfl, rfl, rfl, by decide⟩

/-- Where the old struct of the first call is absent or lies apart from the
new struct, and the structs are guest memory: installing `D` for `s` and
calling `auth_signal` for `s` again with an old pointer `o2` makes the second
call report exactly `D`, whatever the kernel answered to either call. -/
theorem sigaction_twice_apart_reports_installed (env1 env2 : Env) (st : State)
    (D : fbt_sigaction) (nr1 nr2 s p1 o1 p2 o2 b4 b5 b6 bs c4 c5 c6 cs : Nat)
    (hnr1 : nr1 = SYS_sigaction ∨ nr1 = SYS_rt_sigaction)
    (hnr2 : nr2 = SYS_sigaction ∨ nr2 = SYS_rt_sigaction)
    (hp1 : p1 ≠ 0) (ho1 : o1 = 0 ∨ structs_apart o1 p1) (hD : st.sigmem p1 = D) (ho2 : o2 ≠ 0)
    (htp1 : st.target_at p1 = Target.guest) (hto1 : o1 ≠ 0 → st.target_at o1 = Target.guest)
    (htp2 : p2 ≠ 0 → st.target_at p2 = Target.guest) (hto2 : st.target_at o2 = Target.guest) :
    ∃ st1 st2,
      auth_signal env1 st nr1 s p1 o1 b4 b5 b6 bs = Except.ok (SYSCALL_AUTH_FAKE, st1) ∧
      auth_signal env2 st1 nr2 s p2 o2 c4 c5 c6 cs = Except.ok (SYSCALL_AUTH_FAKE, st2) ∧
      st1.tld.signals s = D ∧
      st2.sigmem o2 = D := by
  have hne : o1 ≠ 0 → o1 ≠ p1 := fun h0 =>
    structs_apart_ne o1 p1 (ho1.resolve_left h0)
  refine ⟨_, _, auth_sigaction_eq env1 st nr1 s p1 o1 b4 b5 b6 bs hnr1 (fun _ => htp1) hto1,
    auth_sigaction_eq env2 _ nr2 s p2 o2 c4 c5 c6 cs hnr2 htp2 (fun _ => hto2), ?_, ?_⟩
  · by_cases h : o1 = 0
    · simp [hp1, h, hD]
    · simp [hp1, h, Function.update_noteq (Ne.symm (hne h)), hD]
  · by_cases h : o1 = 0
    · simp [hp1, h, ho2, hD]
    · simp [hp1, h, ho2, Function.update_noteq (Ne.symm (hne h)), hD]

/-- C9 (amended). For every `auth_signal` call with `SYS_signal` the verdict
is EMULATED and one call reaches the kernel; if the word the kernel returns is
below `(ulong_t)(-(128+1))`, that is outside `[-129, -1]`, `*retval` is the
handler slot `arg1` recorded before the call, and if it is inside `[-129, -1]`
`*retval` is that word unchanged. -/
theorem signal_retval_old_handler_or_error (env : Env) (st : State)
    (a1 a2 a3 a4 a5 a6 sy : Nat) :
    ∃ st' c, auth_signal env st SYS_signal a1 a2 a3 a4 a5 a6 sy
        = Except.ok (SYSCALL_AUTH_FAKE, st') ∧
      st'.kernel_calls = st.kernel_calls ++ [c] ∧
      (env.kernel c % WORD < WORD - 129 → st'.retval = (st.tld.signals a1).sigaction) ∧
      (WORD - 129 ≤ env.kernel c % WORD → st'.retval = env.kernel c % WORD) := by
  refine ⟨_, _, auth_signal_signal_eq env st a1 a2 a3 a4 a5 a6 sy, rfl, ?_, ?_⟩
  · intro h
    simp only [if_pos h]
  · intro h
    simp only [if_neg (Nat.not_lt.mpr h)]

/-- C9 (counterexample). Slot 10 records the handler `0x8048100` and the
kernel answers `signal` with the word that reads -4096, which lies in
`[-4096, -1]`: `*retval` ends as `0x8048100`, not as the kernel's word. -/
theorem signal_error_minus_4096_replaced :
    (WORD - 4096 ≤ failing_env.kernel (KCall.signal 10 failing_env.sighandler) ∧
      failing_env.kernel (KCall.signal 10 failing_env.sighandler) ≤ WORD - 1) ∧
    ∃ st', auth_signal failing_env signal_state SYS_signal 10 0x8048200 0 0 0 0 0
        = Except.ok (SYSCALL_AUTH_FAKE, st') ∧
      st'.kernel_calls = [KCall.signal 10 failing_env.sighandler] ∧
      st'.retval = 0x8048100 ∧
      st'.retval ≠ failing_env.kernel (KCall.signal 10 failing_env.sighandler) :=
  ⟨⟨by decide, by decide⟩, _, rfl, rfl, rfl, by decide⟩

/-- C10. For every `auth_signal` call with `SYS_signal` exactly one call
reaches the kernel, `signal(arg1, h)`: the handler `h` is the guest's `arg2`
when `arg2` is `SIG_IGN` or `SIG_DFL`, and the translator's `sighandler` for
every other `arg2`. -/
theorem signal_kernel_facing_handler (env : Env) (st : State)
    (a1 a2 a3 a4 a5 a6 sy : Nat) :
    ∃ st' h, auth_signal env st SYS_signal a1 a2 a3 a4 a5 a6 sy
        = Except.ok (SYSCALL_AUTH_FAKE, st') ∧
      st'.kernel_calls = st.kernel_calls ++ [KCall.signal a1 h] ∧
      ((a2 = SIG_IGN ∨ a2 = SIG_DFL) → h = a2) ∧
      (¬ (a2 = SIG_IGN ∨ a2 = SIG_DFL) → h = env.sighandler) := by
  refine ⟨_, _, auth_signal_signal_eq env st a1 a2 a3 a4 a5 a6 sy, rfl, ?_, ?_⟩
  · intro h
    rw [if_pos h]
  · intro h
    rw [if_neg h]

/-! ## Lemmas on the second group of claims -/

theorem auth_signal_invalid_nr (env : Env) (st : State) (nr a1 a2 a3 a4 a5 a6 sy : Nat)
    (h1 : nr ≠ SYS_signal) (h2 : nr ≠ SYS_sigaction) (h3 : nr ≠ SYS_rt_sigaction) :
    auth_signal env st nr a1 a2 a3 a4 a5 a6 sy =
      Except.error ("Invalid system call number in signal auth (fbt_syscall.c).", st) := by
  unfold auth_signal
  simp [h1, h2, h3, fbt_suicide_str]
  rfl

theorem auth_signal_returns (env : Env) (st : State) (nr a1 a2 a3 a4 a5 a6 sy : Nat)
    (v : syscall_auth_response) (st' : State)
    (h : auth_signal env st nr a1 a2 a3 a4 a5 a6 sy = Except.ok (v, st')) :
    nr = SYS_signal ∨ nr = SYS_sigaction ∨ nr = SYS_rt_sigaction := by
  by_contra hn
  simp only [not_or] at hn
  rw [auth_signal_invalid_nr env st nr a1 a2 a3 a4 a5 a6 sy hn.1 hn.2.1 hn.2.2] at h
  cases h

theorem auth_sigaction_returns (env : Env) (st : State) (nr a1 a2 a3 a4 a5 a6 sy : Nat)
    (hnr : nr = SYS_sigaction ∨ nr = SYS_rt_sigaction) :
    ∃ st', auth_signal env st nr a1 a2 a3 a4 a5 a6 sy = Except.ok (SYSCALL_AUTH_FAKE, st') := by
  have h48 : nr ≠ SYS_signal := by
    rcases hnr with h | h <;> rw [h] <;> decide
  unfold auth_signal
  simp only [ne_eq, h48, not_false_eq_true, if_true, if_false, hnr]
  rcases hnr with h | h <;> subst h <;>
    simp [SYS_sigaction, SYS_signal, SYS_rt_sigaction] <;> exact ⟨_, rfl⟩

/-- C11. For every `auth_signal` call with `SYS_signal`, `SYS_sigaction` or
`SYS_rt_sigaction` the call returns and its verdict is EMULATED
(`SYSCALL_AUTH_FAKE`), whatever the pointers and the kernel's answer; with
`SYS_sigaction` / `SYS_rt_sigaction` and both pointers null the state it
leaves is the state of the call with `*retval = 0`: no kernel call, the table
unchanged. -/
theorem auth_signal_always_emulated (env : Env) (st : State) (nr a1 a2 a3 a4 a5 a6 sy : Nat)
    (hnr : nr = SYS_signal ∨ nr = SYS_sigaction ∨ nr = SYS_rt_sigaction) :
    (∃ st', auth_signal env st nr a1 a2 a3 a4 a5 a6 sy = Except.ok (SYSCALL_AUTH_FAKE, st')) ∧
    ((nr = SYS_sigaction ∨ nr = SYS_rt_sigaction) → a2 = 0 → a3 = 0 →
      auth_signal env st nr a1 a2 a3 a4 a5 a6 sy =
        Except.ok (SYSCALL_AUTH_FAKE, { st with retval := 0 })) := by
  constructor
  · rcases hnr with h | h
    · subst h
      exact ⟨_, auth_signal_signal_eq env st a1 a2 a3 a4 a5 a6 sy⟩
    · exact auth_sigaction_returns env st nr a1 a2 a3 a4 a5 a6 sy h
  · intro h h2 h3
    subst h2 h3
    rw [auth_sigaction_eq env st nr a1 0 0 a4 a5 a6 sy h (fun h0 => absurd rfl h0)
      (fun h0 => absurd rfl h0)]
    simp

/-- Witness for C11: `rt_sigaction(10, NULL, NULL)` in `signal_state`. -/
theorem auth_signal_always_emulated_witness :
    (SYS_rt_sigaction = SYS_signal ∨ SYS_rt_sigaction = SYS_sigaction ∨
      SYS_rt_sigaction = SYS_rt_sigaction) ∧
    (∃ st', auth_signal failing_env signal_state SYS_rt_sigaction 10 0 0 0 0 0 0
      = Except.ok (SYSCALL_AUTH_FAKE, st')) ∧
    auth_signal failing_env signal_state SYS_rt_sigaction 10 0 0 0 0 0 0 =
      Except.ok (SYSCALL_AUTH_FAKE, { signal_state with retval := 0 }) :=
  ⟨Or.inr (Or.inr rfl),
   (auth_signal_always_emulated failing_env signal_state SYS_rt_sigaction 10 0 0 0 0 0 0
      (Or.inr (Or.inr rfl))).1,
   (auth_signal_always_emulated failing_env signal_state SYS_rt_sigaction 10 0 0 0 0 0 0
      (Or.inr (Or.inr rfl))).2 (Or.inr rfl) rfl rfl⟩

/-- C12 (the code at the failing input). The environment array at `arg3`
is `["PATH=/bin"]`, which has no `LD_PRELOAD=` entry: `auth_execve` returns
GRANTED and leaves `*retval` as it was; it does so for every state and every
argument. -/
theorem auth_execve_grants_without_ld_preload :
    execve_state.envmem 0xbfff2000 = ["PATH=/bin"] ∧
    (∀ e ∈ execve_state.envmem 0xbfff2000, (e.take 11 == "LD_PRELOAD=") = false) ∧
    auth_execve scenario_env execve_state SYS_execve 0xbfff1000 0 0xbfff2000 0 0 0 0
      = Except.ok (SYSCALL_AUTH_GRANTED, execve_state) ∧
    execve_state.retval = 7 ∧
    ∀ (env : Env) (st : State) (a1 a2 a3 a4 a5 a6 sy : Nat),
      auth_execve env st SYS_execve a1 a2 a3 a4 a5 a6 sy = Except.ok (SYSCALL_AUTH_GRANTED, st) :=
  ⟨rfl, fun e he => by rw [List.mem_singleton.mp he]; decide, rfl, rfl,
    fun _ _ _ _ _ _ _ _ _ => rfl⟩

theorem walk_chunks_error (st : State) (msg : String) (s z : Nat) (T : List mem_info)
    (e : String × State) (h : walk_chunks st msg s z T = Except.error e) : e = (msg, st) := by
  by_cases hall : ∀ c ∈ T, OVERLAPPING_REGIONS s z c.ptr c.size = false
  · rw [walk_chunks_ok st msg s z T hall] at h
    cases h
  · have hex : ∃ c ∈ T, OVERLAPPING_REGIONS s z c.ptr c.size = true := by
      by_contra hn
      apply hall
      intro c hc
      by_contra hov
      exact hn ⟨c, hc, by simpa using hov⟩
    rw [walk_chunks_abort st msg s z T hex] at h
    cases h
    rfl

theorem of_result_table (st : State) (r : Result)
    (hok : ∀ v st', r = Except.ok (v, st') → st'.tld.syscall_table = st.tld.syscall_table)
    (herr : ∀ msg st', r = Except.error (msg, st') → st' = st) :
    (Outcome.of_result r).st.tld.syscall_table = st.tld.syscall_table := by
  rcases r with ⟨msg, st'⟩ | ⟨v, st'⟩
  · rw [show (Outcome.of_result (Except.error (msg, st'))).st = st' from rfl, herr msg st' rfl]
  · exact hok v st' rfl

theorem auth_mmap_abort_state (env : Env) (st : State) (nr a1 a2 a3 a4 a5 a6 sy : Nat)
    (msg : String) (st' : State)
    (h : auth_mmap env st nr a1 a2 a3 a4 a5 a6 sy = Except.error (msg, st')) : st' = st := by
  rw [auth_mmap_unfold] at h
  split_ifs at h
  · cases h
    rfl
  · cases hw : walk_chunks st "Application tried to mmap internal BT data! (fbt_syscall.c)\n"
        a1 a2 st.tld.chunk with
    | error e =>
      rw [hw, walk_chunks_error st _ a1 a2 st.tld.chunk e hw] at h
      cases h
      rfl
    | ok u => rw [hw] at h; cases h

theorem auth_mmap2_abort_state (env : Env) (st : State) (nr a1 a2 a3 a4 a5 a6 sy : Nat)
    (msg : String) (st' : State)
    (h : auth_mmap2 env st nr a1 a2 a3 a4 a5 a6 sy = Except.error (msg, st')) : st' = st := by
  rw [auth_mmap2_unfold] at h
  split_ifs at h
  · cases h
    rfl
  · cases hw : walk_chunks st "Application tried to mmap internal BT data! (fbt_syscall.c)\n"
        a1 a2 st.tld.chunk with
    | error e =>
      rw [hw, walk_chunks_error st _ a1 a2 st.tld.chunk e hw] at h
      cases h
      rfl
    | ok u => rw [hw] at h; cases h

theorem auth_mprotect_abort_state (env : Env) (st : State) (nr a1 a2 a3 a4 a5 a6 sy : Nat)
    (msg : String) (st' : State)
    (h : auth_mprotect env st nr a1 a2 a3 a4 a5 a6 sy = Except.error (msg, st')) : st' = st := by
  rw [auth_mprotect_unfold] at h
  by_cases hnr : nr ≠ SYS_mprotect
  · rw [if_pos hnr] at h
    cases h
    rfl
  · rw [if_neg hnr] at h
    cases hw : walk_chunks st "Application tried to remap internal BT data! (fbt_syscall.c)\n"
        a1 a2 st.tld.chunk with
    | error e =>
      rw [hw, walk_chunks_error st _ a1 a2 st.tld.chunk e hw] at h
      cases h
      rfl
    | ok u => rw [hw] at h; cases h

theorem auth_signal_abort_state (env : Env) (st : State) (nr a1 a2 a3 a4 a5 a6 sy : Nat)
    (msg : String) (st' : State)
    (h : auth_signal env st nr a1 a2 a3 a4 a5 a6 sy = Except.error (msg, st')) : st' = st := by
  by_cases hnr : nr = SYS_signal ∨ nr = SYS_sigaction ∨ nr = SYS_rt_sigaction
  · rcases hnr with h1 | h1
    · subst h1
      rw [auth_signal_signal_eq] at h
      cases h
    · obtain ⟨st1, e1⟩ := auth_sigaction_returns env st nr a1 a2 a3 a4 a5 a6 sy h1
      rw [e1] at h
      cases h
  · simp only [not_or] at hnr
    rw [auth_signal_invalid_nr env st nr a1 a2 a3 a4 a5 a6 sy hnr.1 hnr.2.1 hnr.2.2] at h
    cases h
    rfl

theorem auth_execve_unfold (env : Env) (st : State) (nr a1 a2 a3 a4 a5 a6 sy : Nat) :
    auth_execve env st nr a1 a2 a3 a4 a5 a6 sy =
      if nr ≠ SYS_execve then
        Except.error ("Invalid system call number in execve (fbt_syscall.c).", st)
      else Except.ok (SYSCALL_AUTH_GRANTED, st) := by
  unfold auth_execve
  by_cases h : nr = SYS_execve
  · simp [h]
    rfl
  · simp [h, fbt_suicide_str]

theorem auth_mmap_keeps_table (env : Env) (st : State) (nr a1 a2 a3 a4 a5 a6 sy : Nat)
    (v : syscall_auth_response) (st' : State)
    (h : auth_mmap env st nr a1 a2 a3 a4 a5 a6 sy = Except.ok (v, st')) :
    st'.tld.syscall_table = st.tld.syscall_table := by
  rw [auth_mmap_unfold] at h
  split_ifs at h
  · cases h
    rfl
  · cases hw : walk_chunks st "Application tried to mmap internal BT data! (fbt_syscall.c)\n"
        a1 a2 st.tld.chunk with
    | error e => rw [hw] at h; cases h
    | ok u => rw [hw] at h; cases h; rfl
  · cases h
    rfl

theorem auth_mmap2_keeps_table (env : Env) (st : State) (nr a1 a2 a3 a4 a5 a6 sy : Nat)
    (v : syscall_auth_response) (st' : State)
    (h : auth_mmap2 env st nr a1 a2 a3 a4 a5 a6 sy = Except.ok (v, st')) :
    st'.tld.syscall_table = st.tld.syscall_table := by
  rw [auth_mmap2_unfold] at h
  split_ifs at h
  · cases h
    rfl
  · cases hw : walk_chunks st "Application tried to mmap internal BT data! (fbt_syscall.c)\n"
        a1 a2 st.tld.chunk with
    | error e => rw [hw] at h; cases h
    | ok u => rw [hw] at h; cases h; rfl
  · cases h
    rfl

theorem auth_mprotect_keeps_table (env : Env) (st : State) (nr a1 a2 a3 a4 a5 a6 sy : Nat)
    (v : syscall_auth_response) (st' : State)
    (h : auth_mprotect env st nr a1 a2 a3 a4 a5 a6 sy = Except.ok (v, st')) :
    st'.tld.syscall_table = st.tld.syscall_table := by
  rw [auth_mprotect_unfold] at h
  split_ifs at h
  all_goals
    cases hw : walk_chunks st "Application tried to remap internal BT data! (fbt_syscall.c)\n"
        a1 a2 st.tld.chunk with
    | error e => rw [hw] at h; cases h
    | ok u => rw [hw] at h; cases h; rfl

theorem auth_signal_keeps_table (env : Env) (st : State) (nr a1 a2 a3 a4 a5 a6 sy : Nat)
    (v : syscall_auth_response) (st' : State)
    (h2t : a2 ≠ 0 → st.target_at a2 = Target.guest)
    (h3t : a3 ≠ 0 → st.target_at a3 = Target.guest)
    (h : auth_signal env st nr a1 a2 a3 a4 a5 a6 sy = Except.ok (v, st')) :
    st'.tld.syscall_table = st.tld.syscall_table := by
  rcases auth_signal_returns env st nr a1 a2 a3 a4 a5 a6 sy v st' h with hnr | hnr
  · subst hnr
    rw [auth_signal_signal_eq] at h
    cases h; rfl
  · rw [auth_sigaction_eq env st nr a1 a2 a3 a4 a5 a6 sy hnr h2t h3t] at h
    cases h; rfl

theorem issue_all_frame (l : List (Nat × Nat × Nat)) (st : State) :
    (l.foldl (fun st r => st.issue (KCall.of_regs r)) st).tld.syscall_table
      = st.tld.syscall_table ∧
    (l.foldl (fun st r => st.issue (KCall.of_regs r)) st).threads = st.threads := by
  induction l generalizing st with
  | nil => exact ⟨rfl, rfl⟩
  | cons r l ih =>
    rw [List.foldl_cons]
    exact ⟨(ih _).1.trans rfl, (ih _).2.trans rfl⟩

theorem auth_exit_tail_frame (env : Env) (st : State) (nr a1 : Nat) :
    (auth_exit_tail env st nr a1).st.tld.syscall_table = st.tld.syscall_table ∧
    (auth_exit_tail env st nr a1).st.threads = st.threads := by
  unfold auth_exit_tail
  simp only
  split
  · exact ⟨rfl, rfl⟩
  · split_ifs <;>
      exact ⟨(issue_all_frame _ _).1, (issue_all_frame _ _).2⟩

theorem auth_exit_unregister_frame (env : Env) (st st1 : State)
    (h : auth_exit_unregister env st = some st1) :
    st1.tld = st.tld := by
  unfold auth_exit_unregister at h
  split_ifs at h
  · cases hu : unlink_thread_entry st.tld.addr st.threads with
    | none => simp [hu] at h
    | some threads => simp [hu] at h; rw [← h]
  · cases h; rfl

theorem auth_exit_keeps_table (env : Env) (st : State) (nr a1 a2 a3 a4 a5 a6 sy : Nat) :
    (auth_exit env st nr a1 a2 a3 a4 a5 a6 sy).st.tld.syscall_table = st.tld.syscall_table := by
  unfold auth_exit
  split_ifs
  · rfl
  · cases hu : auth_exit_unregister env st with
    | none => rfl
    | some st1 =>
      simp only
      rw [(auth_exit_tail_frame env st1 nr a1).1, auth_exit_unregister_frame env st st1 hu]

theorem auth_clone_keeps_table (env : Env) (st : State) (nr a1 a2 a3 a4 a5 a6 sy : Nat) :
    (auth_clone env st nr a1 a2 a3 a4 a5 a6 sy).st.tld.syscall_table = st.tld.syscall_table := by
  unfold auth_clone
  split_ifs <;> first | rfl | (dsimp only; split_ifs <;> rfl)

/-- Where the pointers a guest passes to `auth_signal` point to guest memory
and its signal number is below `MAX_NR_SIGNALS`, every authorizer of the file,
called through its function pointer, leaves the dispatch table of the calling
thread as it was, in the state the call reaches (returned, aborted or
otherwise ended). The bound on the signal number is not used by the proof: a
slot of `signals` behind the array is kept as a record of its own. -/
theorem dispatch_table_kept (b : Build) (f : auth_fn) (env : Env) (st : State)
    (nr a1 a2 a3 a4 a5 a6 sy : Nat)
    (hsig : f = auth_fn.auth_signal →
      a1 < b.MAX_NR_SIGNALS ∧ (a2 ≠ 0 → st.target_at a2 = Target.guest) ∧
        (a3 ≠ 0 → st.target_at a3 = Target.guest)) :
    (f.call env st nr a1 a2 a3 a4 a5 a6 sy).st.tld.syscall_table = st.tld.syscall_table := by
  cases f
  · exact of_result_table st (debug_syscall env st nr a1 a2 a3 a4 a5 a6 sy)
      (fun v st' h => by cases h; rfl) (fun msg st' h => by cases h)
  · exact of_result_table st (deny_syscall env st nr a1 a2 a3 a4 a5 a6 sy)
      (fun v st' h => by cases h) (fun msg st' h => by cases h; rfl)
  · exact of_result_table st (allow_syscall env st nr a1 a2 a3 a4 a5 a6 sy)
      (fun v st' h => by cases h; rfl) (fun msg st' h => by cases h)
  · refine of_result_table st (auth_execve env st nr a1 a2 a3 a4 a5 a6 sy)
      (fun v st' h => ?_) (fun msg st' h => ?_)
    · rw [auth_execve_unfold] at h
      split_ifs at h
      cases h
      rfl
    · rw [auth_execve_unfold] at h
      split_ifs at h
      cases h
      rfl
  · exact of_result_table st _ (auth_mmap_keeps_table env st nr a1 a2 a3 a4 a5 a6 sy)
      (auth_mmap_abort_state env st nr a1 a2 a3 a4 a5 a6 sy)
  · exact of_result_table st _ (auth_mmap2_keeps_table env st nr a1 a2 a3 a4 a5 a6 sy)
      (auth_mmap2_abort_state env st nr a1 a2 a3 a4 a5 a6 sy)
  · exact of_result_table st _ (auth_mprotect_keeps_table env st nr a1 a2 a3 a4 a5 a6 sy)
      (auth_mprotect_abort_state env st nr a1 a2 a3 a4 a5 a6 sy)
  · exact of_result_table st _
      (fun v st' => auth_signal_keeps_table env st nr a1 a2 a3 a4 a5 a6 sy v st'
        (hsig rfl).2.1 (hsig rfl).2.2)
      (auth_signal_abort_state env st nr a1 a2 a3 a4 a5 a6 sy)
  · exact auth_clone_keeps_table env st nr a1 a2 a3 a4 a5 a6 sy
  · exact auth_exit_keeps_table env st nr a1 a2 a3 a4 a5 a6 sy

/-- C15 (the code at the failing input). The table denies `ptrace`, slot 10
records the handler `0x8048100`, and the guest calls `sigaction(10, NULL, p)`
with an old pointer `p` whose field `sigaction` is the entry
`tld->syscall_table[SYS_ptrace]`: called through its table entry,
`auth_signal` returns EMULATED and has stored the handler word in that entry,
which no longer points to `deny_syscall`; the four stores of the old struct
landed in data of the translator. -/
theorem sigaction_old_pointer_rewrites_table :
    table_alias_state.tld.syscall_table SYS_ptrace = some auth_fn.deny_syscall ∧
    (table_alias_state.tld.signals 10).sigaction = 0x8048100 ∧
    ∃ st', auth_fn.auth_signal.call scenario_env table_alias_state SYS_sigaction 10 0
        0x0804d068 0 0 0 0 = Outcome.returned SYSCALL_AUTH_FAKE st' ∧
      st'.tld.syscall_table SYS_ptrace = scenario_env.fn_at 0x8048100 ∧
      st'.tld.syscall_table SYS_ptrace ≠ table_alias_state.tld.syscall_table SYS_ptrace ∧
      st'.stray_stores =
        [(0x0804d068, sigfield.sigaction, 0x8048100), (0x0804d068, sigfield.mask, 1),
         (0x0804d068, sigfield.flags, 2), (0x0804d068, sigfield.restorer, 3)] :=
  ⟨rfl, rfl, _, rfl, rfl, by decide, rfl⟩

theorem fill_table_apply (f : auth_fn) (n i j : Nat) (tld : thread_local_data) :
    (fill_table f i n tld).syscall_table j =
      if i ≤ j ∧ j < i + n then some f else tld.syscall_table j := by
  induction n generalizing i tld with
  | zero => rw [fill_table, if_neg (by omega)]
  | succ n ih =>
    rw [fill_table, ih]
    by_cases h1 : i + 1 ≤ j ∧ j < i + 1 + n
    · rw [if_pos h1, if_pos ⟨by omega, by omega⟩]
    · rw [if_neg h1]
      by_cases h2 : j = i
      · subst h2
        rw [if_pos ⟨le_refl _, by omega⟩]
        simp [table_set]
      · rw [if_neg (by omega)]
        simp [table_set, Function.update_noteq h2]

theorem query_signals_table (k : InitKernel) (n i : Nat) (tld : thread_local_data) :
    (query_signals k i n tld).syscall_table = tld.syscall_table := by
  induction n generalizing i tld with
  | zero => rfl
  | succ n ih =>
    rw [query_signals, ih]
    cases k.old_disposition i <;> rfl

theorem install_failhandler_ok (b : Build) (k : InitKernel) (sig : Nat) (msg : String)
    (tld tld' : thread_local_data)
    (h : install_failhandler b k sig msg tld = Except.ok tld') :
    tld'.syscall_table = tld.syscall_table := by
  unfold install_failhandler at h
  by_cases hf : k.install_fails sig = true
  · simp [hf, fbt_suicide_str] at h
  · simp [hf] at h
    cases h
    rfl

theorem install_failhandler_returns (b : Build) (k : InitKernel) (sig : Nat) (msg : String)
    (tld : thread_local_data) (hf : k.install_fails sig = false) :
    ∃ tld', install_failhandler b k sig msg tld = Except.ok tld' := by
  unfold install_failhandler
  simp [hf]
  exact ⟨_, rfl⟩

theorem init_signal_handlers_ok (b : Build) (k : InitKernel) (tld tld' : thread_local_data)
    (h : init_signal_handlers b k tld = Except.ok tld') :
    tld'.syscall_table = tld.syscall_table := by
  unfold init_signal_handlers at h
  by_cases hs : b.SLEEP_ON_FAIL = true
  · simp only [hs, if_true] at h
    cases h1 : install_failhandler b k 4
        "Could not install SIGILL handler (fbt_syscall.c)\n"
        (query_signals k 0 b.MAX_NR_SIGNALS tld) with
    | error e => rw [h1] at h; cases h
    | ok t1 =>
      rw [h1] at h
      cases h2 : install_failhandler b k 7
          "Could not install SIGBUS handler (fbt_syscall.c)\n" t1 with
      | error e => simp only [h2, bind, Except.bind] at h; cases h
      | ok t2 =>
        simp only [h2, bind, Except.bind] at h
        rw [install_failhandler_ok b k 11 _ t2 tld' h, install_failhandler_ok b k 7 _ t1 t2 h2,
          install_failhandler_ok b k 4 _ _ t1 h1, query_signals_table]
  · simp only [hs] at h
    cases h
    exact query_signals_table k _ _ tld

theorem init_signal_handlers_returns (b : Build) (k : InitKernel) (tld : thread_local_data)
    (hk : b.SLEEP_ON_FAIL = true →
      k.install_fails 4 = false ∧ k.install_fails 7 = false ∧ k.install_fails 11 = false) :
    ∃ tld', init_signal_handlers b k tld = Except.ok tld' := by
  unfold init_signal_handlers
  by_cases hs : b.SLEEP_ON_FAIL = true
  · obtain ⟨h4, h7, h11⟩ := hk hs
    obtain ⟨t1, e1⟩ := install_failhandler_returns b k 4
      "Could not install SIGILL handler (fbt_syscall.c)\n"
      (query_signals k 0 b.MAX_NR_SIGNALS tld) h4
    obtain ⟨t2, e2⟩ := install_failhandler_returns b k 7
      "Could not install SIGBUS handler (fbt_syscall.c)\n" t1 h7
    obtain ⟨t3, e3⟩ := install_failhandler_returns b k 11
      "Could not install SIGSEGV handler (fbt_syscall.c)\n" t2 h11
    refine ⟨t3, ?_⟩
    simp only [hs, if_true, e1, e2, e3, bind, Except.bind]
  · exact ⟨_, by simp only [hs]; rfl⟩

theorem fbt_init_syscalls_table (b : Build) (k : InitKernel) (tld tld' : thread_local_data)
    (h : fbt_init_syscalls b k tld = Except.ok tld') :
    tld'.syscall_table = (init_table b tld).syscall_table := by
  unfold fbt_init_syscalls at h
  unfold init_table
  by_cases hs : b.HANDLE_SIGNALS = true
  · simp only [hs, if_true] at h ⊢
    generalize ht : table_set (table_set (table_set _ SYS_signal auth_fn.auth_signal)
      SYS_sigaction auth_fn.auth_signal) SYS_rt_sigaction auth_fn.auth_signal = t at h ⊢
    cases hi : init_signal_handlers b k t with
    | error e => simp only [hi, bind, Except.bind] at h; cases h
    | ok t1 =>
      simp only [hi, bind, Except.bind, pure, Except.pure] at h
      have ht1 := init_signal_handlers_ok b k t t1 hi
      cases h
      by_cases hth : b.HANDLE_THREADS = true
      · simp only [hth, if_true, table_set, ht1]
      · have hth' : b.HANDLE_THREADS = false := by simpa using hth
        simp only [hth', Bool.false_eq_true, if_false]
        exact ht1
  · simp only [hs] at h ⊢
    simp only [bind, Except.bind, pure, Except.pure] at h
    cases h
    rfl

theorem fbt_init_syscalls_returns (b : Build) (k : InitKernel) (tld : thread_local_data)
    (hk : installs_succeed b k) :
    ∃ tld', fbt_init_syscalls b k tld = Except.ok tld' := by
  unfold fbt_init_syscalls
  by_cases hs : b.HANDLE_SIGNALS = true
  · simp only [hs, if_true]
    generalize table_set (table_set (table_set _ SYS_signal auth_fn.auth_signal)
      SYS_sigaction auth_fn.auth_signal) SYS_rt_sigaction auth_fn.auth_signal = t
    obtain ⟨t1, e1⟩ := init_signal_handlers_returns b k t (hk hs)
    refine ⟨if b.HANDLE_THREADS = true then
        table_set (table_set (table_set t1 SYS_clone auth_fn.auth_clone)
          SYS_exit auth_fn.auth_exit) SYS_exit_group auth_fn.auth_exit
      else t1, ?_⟩
    simp only [e1, bind, Except.bind, pure, Except.pure]
  · simp only [hs]
    exact ⟨_, rfl⟩

theorem table_set_some (t : thread_local_data) (i j : Nat) (f : auth_fn)
    (h : ∃ g, t.syscall_table i = some g) : ∃ g, (table_set t j f).syscall_table i = some g := by
  unfold table_set
  by_cases hij : i = j
  · subst hij
    exact ⟨f, by simp⟩
  · obtain ⟨g, hg⟩ := h
    exact ⟨g, by simp [Function.update_noteq hij, hg]⟩

theorem table_set_ne (t : thread_local_data) (i j : Nat) (f : auth_fn) (hij : i ≠ j) :
    (table_set t j f).syscall_table i = t.syscall_table i := by
  simp [table_set, Function.update_noteq hij]

theorem table_set_same (t : thread_local_data) (i : Nat) (f : auth_fn) :
    (table_set t i f).syscall_table i = some f := by
  simp [table_set]

theorem table_set_isSome (t : thread_local_data) (i j : Nat) (f : auth_fn) :
    ((table_set t j f).syscall_table i).isSome = (decide (i = j) || (t.syscall_table i).isSome) := by
  by_cases hij : i = j
  · subst hij
    simp [table_set]
  · simp [table_set, Function.update_noteq hij, hij]

theorem init_table_some (b : Build) (tld : thread_local_data) (i : Nat)
    (hi : i < b.MAX_SYSCALLS_TABLE) : ∃ f, (init_table b tld).syscall_table i = some f := by
  have base : ((fill_table auth_fn.deny_syscall (b.NR_syscalls + 1)
      (b.MAX_SYSCALLS_TABLE - (b.NR_syscalls + 1))
      (fill_table auth_fn.allow_syscall 0 (b.NR_syscalls + 1) tld)).syscall_table i).isSome
      = true := by
    rw [fill_table_apply, fill_table_apply]
    by_cases h : i ≤ b.NR_syscalls
    · rw [if_neg (by omega), if_pos ⟨by omega, by omega⟩]
      rfl
    · rw [if_pos ⟨by omega, by omega⟩]
      rfl
  rw [← Option.isSome_iff_exists]
  unfold init_table
  obtain ⟨NR, MAX, MNS, un, sa, hs, ht, sl, fh⟩ := b
  simp only at base ⊢
  generalize fill_table auth_fn.deny_syscall (NR + 1) (MAX - (NR + 1))
    (fill_table auth_fn.allow_syscall 0 (NR + 1) tld) = t0 at base ⊢
  rcases un with _ | ⟨u1, u2, u3⟩ <;> rcases sa with _ | sa <;>
    rcases hs with _ | _ <;> rcases ht with _ | _ <;>
    simp only [Bool.false_eq_true, if_false, if_true, table_set_isSome, base, Bool.or_true]

theorem init_table_default (b : Build) (tld : thread_local_data) (i : Nat)
    (hi : i < b.MAX_SYSCALLS_TABLE) (hno : i ∉ overridden b) :
    (i ≤ b.NR_syscalls → (init_table b tld).syscall_table i = some auth_fn.allow_syscall) ∧
    (b.NR_syscalls < i → (init_table b tld).syscall_table i = some auth_fn.deny_syscall) := by
  have base : (fill_table auth_fn.deny_syscall (b.NR_syscalls + 1)
      (b.MAX_SYSCALLS_TABLE - (b.NR_syscalls + 1))
      (fill_table auth_fn.allow_syscall 0 (b.NR_syscalls + 1) tld)).syscall_table i =
      if i ≤ b.NR_syscalls then some auth_fn.allow_syscall else some auth_fn.deny_syscall := by
    rw [fill_table_apply, fill_table_apply]
    by_cases h : i ≤ b.NR_syscalls
    · rw [if_neg (by omega), if_pos ⟨by omega, by omega⟩, if_pos h]
    · rw [if_pos ⟨by omega, by omega⟩, if_neg h]
  have key : (init_table b tld).syscall_table i =
      if i ≤ b.NR_syscalls then some auth_fn.allow_syscall else some auth_fn.deny_syscall := by
    rw [← base]
    unfold init_table
    unfold overridden at hno
    obtain ⟨NR, MAX, MNS, un, sa, hs, ht, sl, fh⟩ := b
    simp only at hno ⊢
    generalize fill_table auth_fn.deny_syscall (NR + 1) (MAX - (NR + 1))
      (fill_table auth_fn.allow_syscall 0 (NR + 1) tld) = t0
    rcases un with _ | ⟨u1, u2, u3⟩ <;> rcases sa with _ | sa <;>
      rcases hs with _ | _ <;> rcases ht with _ | _ <;>
      simp only [Bool.false_eq_true, if_false, if_true, List.append_nil, List.mem_append,
        List.mem_cons, List.mem_singleton, List.not_mem_nil, or_false, not_or,
        List.cons_append, List.nil_append] at hno ⊢ <;>
      simp only [table_set_ne, ne_eq, hno, not_false_eq_true]
  rw [key]
  constructor
  · intro h; rw [if_pos h]
  · intro h; rw [if_neg (by omega)]

theorem table_set_apply (t : thread_local_data) (i j : Nat) (f : auth_fn) :
    (table_set t j f).syscall_table i = if i = j then some f else t.syscall_table i := by
  by_cases hij : i = j
  · subst hij
    simp [table_set]
  · simp [table_set, Function.update_noteq hij, hij]

theorem init_table_ptrace (b : Build) (tld : thread_local_data) :
    (init_table b tld).syscall_table SYS_ptrace = some auth_fn.deny_syscall := by
  unfold init_table
  obtain ⟨NR, MAX, MNS, un, sa, hs, ht, sl, fh⟩ := b
  simp only
  generalize fill_table auth_fn.deny_syscall (NR + 1) (MAX - (NR + 1))
    (fill_table auth_fn.allow_syscall 0 (NR + 1) tld) = t0
  rcases un with _ | ⟨u1, u2, u3⟩ <;> rcases sa with _ | sa <;>
    rcases hs with _ | _ <;> rcases ht with _ | _ <;>
    simp only [Bool.false_eq_true, if_false, if_true, table_set_apply] <;>
    simp [SYS_ptrace, SYS_sigreturn, SYS_rt_sigreturn, SYS_execve, SYS_mmap, SYS_mmap2,
      SYS_mprotect, SYS_signal, SYS_sigaction, SYS_rt_sigaction, SYS_clone, SYS_exit,
      SYS_exit_group]

theorem example_installs_succeed : installs_succeed example_build example_init_kernel := by
  intro _ _
  exact ⟨rfl, rfl, rfl⟩

theorem example_in_bounds : table_writes_in_bounds example_build := by
  constructor
  · decide
  · intro i hi
    simp [overridden, example_build, SYS_ptrace, SYS_sigreturn, SYS_rt_sigreturn, SYS_execve,
      SYS_mmap, SYS_mmap2, SYS_mprotect, SYS_signal, SYS_sigaction, SYS_rt_sigaction,
      SYS_clone, SYS_exit, SYS_exit_group] at hi
    simp only [example_build]
    omega

theorem example_distinct : distinct_numbers example_build := by
  intro x hx
  simp [example_build] at hx
  simp [SYS_execve, SYS_mmap, SYS_mmap2, SYS_mprotect, SYS_signal, SYS_sigaction,
    SYS_rt_sigaction, SYS_clone, SYS_exit, SYS_exit_group]
  omega

/-- C13: where the stores of `fbt_init_syscalls` stay inside the table and the
kernel accepts the handlers a `SLEEP_ON_FAIL` build installs, the function
returns, and in the table it leaves every index below `MAX_SYSCALLS_TABLE`
holds an authorizer: `allow_syscall` at every index up to `NR_syscalls` that is
not assigned after the loops, `deny_syscall` at every such index above
`NR_syscalls`. The table before the call is arbitrary. -/
theorem init_syscalls_covers_table (b : Build) (k : InitKernel) (tld : thread_local_data)
    (_hb : table_writes_in_bounds b) (hk : installs_succeed b k) :
    ∃ tld', fbt_init_syscalls b k tld = Except.ok tld' ∧
      ∀ i, i < b.MAX_SYSCALLS_TABLE →
        (∃ f, tld'.syscall_table i = some f) ∧
        (i ∉ overridden b → i ≤ b.NR_syscalls →
          tld'.syscall_table i = some auth_fn.allow_syscall) ∧
        (i ∉ overridden b → b.NR_syscalls < i →
          tld'.syscall_table i = some auth_fn.deny_syscall) := by
  obtain ⟨tld', h⟩ := fbt_init_syscalls_returns b k tld hk
  refine ⟨tld', h, ?_⟩
  have ht := fbt_init_syscalls_table b k tld tld' h
  intro i hi
  rw [ht]
  exact ⟨init_table_some b tld i hi,
    fun hno => (init_table_default b tld i hi hno).1,
    fun hno => (init_table_default b tld i hi hno).2⟩

theorem init_syscalls_covers_table_witness :
    table_writes_in_bounds example_build ∧ installs_succeed example_build example_init_kernel ∧
    ∃ tld', fbt_init_syscalls example_build example_init_kernel empty_state.tld
        = Except.ok tld' ∧
      ∀ i, i < example_build.MAX_SYSCALLS_TABLE →
        (∃ f, tld'.syscall_table i = some f) ∧
        (i ∉ overridden example_build → i ≤ example_build.NR_syscalls →
          tld'.syscall_table i = some auth_fn.allow_syscall) ∧
        (i ∉ overridden example_build → example_build.NR_syscalls < i →
          tld'.syscall_table i = some auth_fn.deny_syscall) :=
  ⟨example_in_bounds, example_installs_succeed,
    init_syscalls_covers_table example_build example_init_kernel empty_state.tld
      example_in_bounds example_installs_succeed⟩

/-- C14: in a build with `HANDLE_SIGNALS` and `HANDLE_THREADS` that defines the
three unused slots and `setaltroot` at numbers that are not those of a system
call with an authorizer of its own, `fbt_init_syscalls` returns with
`deny_syscall` at `ptrace`, `sigreturn`, `rt_sigreturn`, the three unused slots
and `setaltroot`, `auth_execve` at `execve`, `auth_mmap` at `mmap`,
`auth_mmap2` at `mmap2`, `auth_mprotect` at `mprotect`, `auth_signal` at
`signal`, `sigaction` and `rt_sigaction`, `auth_clone` at `clone` and
`auth_exit` at `exit` and `exit_group`: every override is still in place at the
end. -/
theorem init_syscalls_overrides (b : Build) (k : InitKernel) (tld : thread_local_data)
    (u1 u2 u3 sa : Nat)
    (hs : b.HANDLE_SIGNALS = true) (hth : b.HANDLE_THREADS = true)
    (hu : b.SYS_unused = some (u1, u2, u3)) (hsa : b.SYS_sys_setaltroot = some sa)
    (hd : distinct_numbers b) (_hb : table_writes_in_bounds b) (hk : installs_succeed b k) :
    ∃ tld', fbt_init_syscalls b k tld = Except.ok tld' ∧
      tld'.syscall_table SYS_ptrace = some auth_fn.deny_syscall ∧
      tld'.syscall_table SYS_sigreturn = some auth_fn.deny_syscall ∧
      tld'.syscall_table SYS_rt_sigreturn = some auth_fn.deny_syscall ∧
      tld'.syscall_table u1 = some auth_fn.deny_syscall ∧
      tld'.syscall_table u2 = some auth_fn.deny_syscall ∧
      tld'.syscall_table u3 = some auth_fn.deny_syscall ∧
      tld'.syscall_table sa = some auth_fn.deny_syscall ∧
      tld'.syscall_table SYS_execve = some auth_fn.auth_execve ∧
      tld'.syscall_table SYS_mmap = some auth_fn.auth_mmap ∧
      tld'.syscall_table SYS_mmap2 = some auth_fn.auth_mmap2 ∧
      tld'.syscall_table SYS_mprotect = some auth_fn.auth_mprotect ∧
      tld'.syscall_table SYS_signal = some auth_fn.auth_signal ∧
      tld'.syscall_table SYS_sigaction = some auth_fn.auth_signal ∧
      tld'.syscall_table SYS_rt_sigaction = some auth_fn.auth_signal ∧
      tld'.syscall_table SYS_clone = some auth_fn.auth_clone ∧
      tld'.syscall_table SYS_exit = some auth_fn.auth_exit ∧
      tld'.syscall_table SYS_exit_group = some auth_fn.auth_exit := by
  obtain ⟨tld', h⟩ := fbt_init_syscalls_returns b k tld hk
  refine ⟨tld', h, ?_⟩
  have ht := fbt_init_syscalls_table b k tld tld' h
  rw [ht]
  unfold init_table
  unfold distinct_numbers at hd
  obtain ⟨NR, MAX, MNS, un, sa', hs', ht', sl, fh⟩ := b
  simp only at hs hth hu hsa hd ⊢
  subst hs hth hu hsa
  generalize fill_table auth_fn.deny_syscall (NR + 1) (MAX - (NR + 1))
    (fill_table auth_fn.allow_syscall 0 (NR + 1) tld) = t0
  have h1 := hd u1 (by simp)
  have h2 := hd u2 (by simp)
  have h3 := hd u3 (by simp)
  have h4 := hd sa (by simp)
  simp only [List.mem_cons, List.mem_singleton, List.not_mem_nil, or_false, not_or] at h1 h2 h3 h4
  simp only [if_true, table_set_apply]
  simp only [SYS_ptrace, SYS_sigreturn, SYS_rt_sigreturn, SYS_execve, SYS_mmap, SYS_mmap2,
    SYS_mprotect, SYS_signal, SYS_sigaction, SYS_rt_sigaction, SYS_clone, SYS_exit,
    SYS_exit_group] at h1 h2 h3 h4 ⊢
  simp [h1, h2, h3, h4]

theorem init_syscalls_overrides_witness :
    ∃ tld', fbt_init_syscalls example_build example_init_kernel empty_state.tld
        = Except.ok tld' ∧
      tld'.syscall_table SYS_ptrace = some auth_fn.deny_syscall ∧
      tld'.syscall_table SYS_sigreturn = some auth_fn.deny_syscall ∧
      tld'.syscall_table SYS_rt_sigreturn = some auth_fn.deny_syscall ∧
      tld'.syscall_table 222 = some auth_fn.deny_syscall ∧
      tld'.syscall_table 223 = some auth_fn.deny_syscall ∧
      tld'.syscall_table 251 = some auth_fn.deny_syscall ∧
      tld'.syscall_table 285 = some auth_fn.deny_syscall ∧
      tld'.syscall_table SYS_execve = some auth_fn.auth_execve ∧
      tld'.syscall_table SYS_mmap = some auth_fn.auth_mmap ∧
      tld'.syscall_table SYS_mmap2 = some auth_fn.auth_mmap2 ∧
      tld'.syscall_table SYS_mprotect = some auth_fn.auth_mprotect ∧
      tld'.syscall_table SYS_signal = some auth_fn.auth_signal ∧
      tld'.syscall_table SYS_sigaction = some auth_fn.auth_signal ∧
      tld'.syscall_table SYS_rt_sigaction = some auth_fn.auth_signal ∧
      tld'.syscall_table SYS_clone = some auth_fn.auth_clone ∧
      tld'.syscall_table SYS_exit = some auth_fn.auth_exit ∧
      tld'.syscall_table SYS_exit_group = some auth_fn.auth_exit :=
  init_syscalls_overrides example_build example_init_kernel empty_state.tld 222 223 251 285
    rfl rfl rfl rfl example_distinct example_in_bounds example_installs_succeed

theorem deny_syscall_eq (env : Env) (st : State) (nr a1 a2 a3 a4 a5 a6 sy : Nat) :
    deny_syscall env st nr a1 a2 a3 a4 a5 a6 sy =
      Except.error ("This system call is illegal (fbt_syscall.c).\n", st) := rfl

/-- C16, counterexample: called with `*retval = 7`, `deny_syscall` ends in
`fbt_suicide_str` in a state in which `*retval` still holds 7, not the word
that reads -1, and it hands back no verdict; so does the call through the
table entry. -/
theorem deny_syscall_leaves_retval :
    empty_state.retval = 7 ∧
    (∃ st', deny_syscall scenario_env empty_state SYS_ptrace 1 2 3 4 5 6 0 =
        Except.error ("This system call is illegal (fbt_syscall.c).\n", st') ∧
      st'.retval = 7 ∧ st'.retval ≠ WORD - 1) ∧
    (∀ v st', deny_syscall scenario_env empty_state SYS_ptrace 1 2 3 4 5 6 0
        ≠ Except.ok (v, st')) ∧
    (auth_fn.deny_syscall.call scenario_env empty_state SYS_ptrace 1 2 3 4 5 6 0).st.retval
      = 7 := by
  refine ⟨rfl, ⟨_, rfl, rfl, by decide⟩, ?_, rfl⟩
  intro v st' h
  rw [deny_syscall_eq] at h
  cases h

/-- C16, amended: for every input `deny_syscall` ends in the fatal abort with
the "illegal" message, in the state it was called in: `*retval` is not
written and no verdict is returned; and `fbt_init_syscalls`, where its stores
stay inside the table and the kernel accepts the handlers it installs, returns
a table whose entry at `SYS_ptrace` is an authorizer that ends so. -/
theorem deny_syscall_aborts (env : Env) (st : State) (nr a1 a2 a3 a4 a5 a6 sy : Nat)
    (b : Build) (k : InitKernel) (tld : thread_local_data)
    (_hb : table_writes_in_bounds b) (hk : installs_succeed b k) :
    deny_syscall env st nr a1 a2 a3 a4 a5 a6 sy =
      Except.error ("This system call is illegal (fbt_syscall.c).\n", st) ∧
    auth_fn.deny_syscall.call env st nr a1 a2 a3 a4 a5 a6 sy =
      Outcome.abort "This system call is illegal (fbt_syscall.c).\n" st ∧
    ∃ tld', fbt_init_syscalls b k tld = Except.ok tld' ∧
      ∃ f, tld'.syscall_table SYS_ptrace = some f ∧
        f.call env st nr a1 a2 a3 a4 a5 a6 sy =
          Outcome.abort "This system call is illegal (fbt_syscall.c).\n" st := by
  refine ⟨rfl, rfl, ?_⟩
  obtain ⟨tld', h⟩ := fbt_init_syscalls_returns b k tld hk
  refine ⟨tld', h, auth_fn.deny_syscall, ?_, rfl⟩
  rw [fbt_init_syscalls_table b k tld tld' h]
  exact init_table_ptrace b tld

theorem deny_syscall_aborts_witness :
    deny_syscall scenario_env empty_state SYS_ptrace 1 2 3 4 5 6 0 =
      Except.error ("This system call is illegal (fbt_syscall.c).\n", empty_state) ∧
    auth_fn.deny_syscall.call scenario_env empty_state SYS_ptrace 1 2 3 4 5 6 0 =
      Outcome.abort "This system call is illegal (fbt_syscall.c).\n" empty_state ∧
    ∃ tld', fbt_init_syscalls example_build example_init_kernel empty_state.tld
        = Except.ok tld' ∧
      ∃ f, tld'.syscall_table SYS_ptrace = some f ∧
        f.call scenario_env empty_state SYS_ptrace 1 2 3 4 5 6 0 =
          Outcome.abort "This system call is illegal (fbt_syscall.c).\n" empty_state :=
  deny_syscall_aborts scenario_env empty_state SYS_ptrace 1 2 3 4 5 6 0
    example_build example_init_kernel empty_state.tld example_in_bounds example_installs_succeed

/-- C17: called with a system call number outside the set it handles, each of
`auth_execve`, `auth_mmap`, `auth_mmap2`, `auth_mprotect`, `auth_signal`,
`auth_clone` and `auth_exit` ends in the fatal abort with its "Invalid system
call number" message, and the state in which it calls `fbt_suicide_str` is
the state it was called in: tables, lists, `*retval`, the record of kernel
calls and of events are as before. -/
theorem authorizers_abort_on_foreign_number (env : Env) (st : State)
    (nr a1 a2 a3 a4 a5 a6 sy : Nat) :
    (nr ≠ SYS_execve →
      auth_fn.auth_execve.call env st nr a1 a2 a3 a4 a5 a6 sy =
        Outcome.abort "Invalid system call number in execve (fbt_syscall.c)." st) ∧
    (nr ≠ SYS_mmap →
      auth_fn.auth_mmap.call env st nr a1 a2 a3 a4 a5 a6 sy =
        Outcome.abort "Invalid system call number in mmap (fbt_syscall.c)." st) ∧
    (nr ≠ SYS_mmap2 →
      auth_fn.auth_mmap2.call env st nr a1 a2 a3 a4 a5 a6 sy =
        Outcome.abort "Invalid system call number in mmap (fbt_syscall.c)." st) ∧
    (nr ≠ SYS_mprotect →
      auth_fn.auth_mprotect.call env st nr a1 a2 a3 a4 a5 a6 sy =
        Outcome.abort "Invalid system call number in mprotect (fbt_syscall.c)." st) ∧
    (nr ≠ SYS_signal → nr ≠ SYS_sigaction → nr ≠ SYS_rt_sigaction →
      auth_fn.auth_signal.call env st nr a1 a2 a3 a4 a5 a6 sy =
        Outcome.abort "Invalid system call number in signal auth (fbt_syscall.c)." st) ∧
    (nr ≠ SYS_clone →
      auth_fn.auth_clone.call env st nr a1 a2 a3 a4 a5 a6 sy =
        Outcome.abort "Invalid system call number in clone auth (fbt_syscall.c)." st) ∧
    (nr ≠ SYS_exit → nr ≠ SYS_exit_group →
      auth_fn.auth_exit.call env st nr a1 a2 a3 a4 a5 a6 sy =
        Outcome.abort "Invalid system call number in exit auth (fbt_syscall.c)." st) := by
  refine ⟨?_, ?_, ?_, ?_, ?_, ?_, ?_⟩
  · intro h
    simp only [auth_fn.call, auth_execve_unfold, if_pos h]
    rfl
  · intro h
    simp only [auth_fn.call, auth_mmap_unfold, if_pos h]
    rfl
  · intro h
    simp only [auth_fn.call, auth_mmap2_unfold, if_pos h]
    rfl
  · intro h
    simp only [auth_fn.call, auth_mprotect_unfold, if_pos h]
    rfl
  · intro h1 h2 h3
    simp only [auth_fn.call, auth_signal_invalid_nr env st nr a1 a2 a3 a4 a5 a6 sy h1 h2 h3]
    rfl
  · intro h
    simp only [auth_fn.call, auth_clone, if_pos h]
  · intro h1 h2
    simp only [auth_fn.call, auth_exit, if_pos (And.intro h1 h2)]

theorem authorizers_abort_on_foreign_number_witness :
    auth_fn.auth_execve.call scenario_env empty_state 0 1 2 3 4 5 6 0 =
      Outcome.abort "Invalid system call number in execve (fbt_syscall.c)." empty_state ∧
    auth_fn.auth_mmap.call scenario_env empty_state 0 1 2 3 4 5 6 0 =
      Outcome.abort "Invalid system call number in mmap (fbt_syscall.c)." empty_state ∧
    auth_fn.auth_mmap2.call scenario_env empty_state 0 1 2 3 4 5 6 0 =
      Outcome.abort "Invalid system call number in mmap (fbt_syscall.c)." empty_state ∧
    auth_fn.auth_mprotect.call scenario_env empty_state 0 1 2 3 4 5 6 0 =
      Outcome.abort "Invalid system call number in mprotect (fbt_syscall.c)." empty_state ∧
    auth_fn.auth_signal.call scenario_env empty_state 0 1 2 3 4 5 6 0 =
      Outcome.abort "Invalid system call number in signal auth (fbt_syscall.c)." empty_state ∧
    auth_fn.auth_clone.call scenario_env empty_state 0 1 2 3 4 5 6 0 =
      Outcome.abort "Invalid system call number in clone auth (fbt_syscall.c)." empty_state ∧
    auth_fn.auth_exit.call scenario_env empty_state 0 1 2 3 4 5 6 0 =
      Outcome.abort "Invalid system call number in exit auth (fbt_syscall.c)." empty_state :=
  have h := authorizers_abort_on_foreign_number scenario_env empty_state 0 1 2 3 4 5 6 0
  ⟨h.1 (by decide), h.2.1 (by decide), h.2.2.1 (by decide), h.2.2.2.1 (by decide),
    h.2.2.2.2.1 (by decide) (by decide) (by decide), h.2.2.2.2.2.1 (by decide),
    h.2.2.2.2.2.2 (by decide) (by decide)⟩

theorem unlink_absent (tld : Nat) (threads : List Nat) (h : tld ∉ threads) :
    unlink_thread_entry tld threads = none := by
  induction threads with
  | nil => rfl
  | cons te next ih =>
    have h1 : te ≠ tld := fun e => h (by simp [e])
    have h2 : tld ∉ next := fun hm => h (List.mem_cons_of_mem te hm)
    simp [unlink_thread_entry, h1, ih h2]

theorem unlink_present (tld : Nat) (threads : List Nat) (h : tld ∈ threads) :
    unlink_thread_entry tld threads = some (threads.erase tld) := by
  induction threads with
  | nil => simp at h
  | cons te next ih =>
    by_cases h1 : te = tld
    · subst h1
      simp [unlink_thread_entry]
    · have h2 : tld ∈ next := by
        rcases List.mem_cons.mp h with e | hm
        · exact absurd e.symm h1
        · exact hm
      simp [unlink_thread_entry, h1, ih h2, List.erase_cons_tail, beq_iff_eq]

theorem auth_exit_threads (env : Env) (st : State) (nr a1 a2 a3 a4 a5 a6 sy : Nat)
    (hsd : env.SHARED_DATA = true) (hnr : nr = SYS_exit ∨ nr = SYS_exit_group)
    (threads : List Nat) (hu : unlink_thread_entry st.tld.addr st.threads = some threads) :
    (auth_exit env st nr a1 a2 a3 a4 a5 a6 sy).st.threads = threads := by
  have hn : ¬ (nr ≠ SYS_exit ∧ nr ≠ SYS_exit_group) := by
    rintro ⟨h1, h2⟩
    rcases hnr with h | h
    · exact h1 h
    · exact h2 h
  unfold auth_exit
  rw [if_neg hn]
  unfold auth_exit_unregister
  simp only [hsd, if_true, hu, Option.map_some']
  rw [(auth_exit_tail_frame env _ nr a1).2]

/-- C18: where the thread list holds no entry of the exiting thread (the empty
list is one such list), the unlink of `auth_exit` reads `te->tld` with
`te == NULL`: the `SHARED_DATA` block does not complete, and `auth_exit`,
called with `SYS_exit` or `SYS_exit_group`, ends in that fault with the mutex
held, before `fbt_end_transaction` and before any system call. -/
theorem unregister_absent_tld_faults (env : Env) (st : State) (nr a1 a2 a3 a4 a5 a6 sy : Nat)
    (hsd : env.SHARED_DATA = true) (hnr : nr = SYS_exit ∨ nr = SYS_exit_group)
    (habsent : st.tld.addr ∉ st.threads) :
    unlink_thread_entry st.tld.addr st.threads = none ∧
    auth_exit_unregister env st = none ∧
    auth_exit env st nr a1 a2 a3 a4 a5 a6 sy =
      Outcome.fault "te->tld read with te == NULL"
        { st with events := st.events ++ [Event.fbt_mutex_lock] } := by
  have hu := unlink_absent st.tld.addr st.threads habsent
  have hn : ¬ (nr ≠ SYS_exit ∧ nr ≠ SYS_exit_group) := by
    rintro ⟨h1, h2⟩
    rcases hnr with h | h
    · exact h1 h
    · exact h2 h
  have hr : auth_exit_unregister env st = none := by
    unfold auth_exit_unregister
    simp only [hsd, if_true, hu, Option.map_none']
  refine ⟨hu, hr, ?_⟩
  unfold auth_exit
  rw [if_neg hn, hr]

theorem unregister_absent_tld_faults_witness :
    (thread_A_state []).tld.addr ∉ (thread_A_state []).threads ∧
    unlink_thread_entry (thread_A_state []).tld.addr (thread_A_state []).threads = none ∧
    auth_exit_unregister scenario_env (thread_A_state []) = none ∧
    auth_exit scenario_env (thread_A_state []) SYS_exit 0 0 0 0 0 0 0 =
      Outcome.fault "te->tld read with te == NULL"
        { thread_A_state [] with
          events := (thread_A_state []).events ++ [Event.fbt_mutex_lock] } :=
  ⟨by simp [thread_A_state],
    unregister_absent_tld_faults scenario_env (thread_A_state []) SYS_exit 0 0 0 0 0 0 0 rfl
      (Or.inl rfl) (by simp [thread_A_state])⟩

/-- C19: where the thread list holds an entry of the exiting thread, the
unlink of `auth_exit` completes and leaves the list without the first entry of
that tld: the list is `before ++ tld :: after` with no entry of the tld in
`before`, and the list left is `before ++ after`, which is the list with the
first occurrence erased. `auth_exit`, called with `SYS_exit` or
`SYS_exit_group`, ends in a state with that list. -/
theorem unregister_removes_first_entry (env : Env) (st : State)
    (nr a1 a2 a3 a4 a5 a6 sy : Nat)
    (hsd : env.SHARED_DATA = true) (hnr : nr = SYS_exit ∨ nr = SYS_exit_group)
    (hin : st.tld.addr ∈ st.threads) :
    (∃ before after, st.tld.addr ∉ before ∧
      st.threads = before ++ st.tld.addr :: after ∧
      unlink_thread_entry st.tld.addr st.threads = some (before ++ after) ∧
      (auth_exit env st nr a1 a2 a3 a4 a5 a6 sy).st.threads = before ++ after) ∧
    (auth_exit env st nr a1 a2 a3 a4 a5 a6 sy).st.threads = st.threads.erase st.tld.addr := by
  have hu := unlink_present st.tld.addr st.threads hin
  have he := auth_exit_threads env st nr a1 a2 a3 a4 a5 a6 sy hsd hnr _ hu
  obtain ⟨before, after, h1, h2, h3⟩ := List.exists_erase_eq hin
  refine ⟨⟨before, after, h1, h2, ?_, ?_⟩, he⟩
  · rw [hu, h3]
  · rw [he, h3]

theorem unregister_removes_first_entry_witness :
    (fbt_bootstrap_thread scenario_env (thread_B_state
      (fbt_bootstrap_thread scenario_env (thread_A_state [])).threads)).threads
      = [0xB000, 0xA000] ∧
    (auth_exit scenario_env (thread_A_state [0xB000, 0xA000]) SYS_exit 0 0 0 0 0 0 0).st.threads
      = [0xB000] :=
  ⟨rfl,
    (unregister_removes_first_entry scenario_env (thread_A_state [0xB000, 0xA000])
      SYS_exit 0 0 0 0 0 0 0 rfl (Or.inl rfl) (by simp [thread_A_state])).2.trans
      (by decide)⟩

theorem bootstrap_threads (env : Env) (st : State) (hsd : env.SHARED_DATA = true) :
    (fbt_bootstrap_thread env st).threads = st.tld.addr :: st.threads := by
  unfold fbt_bootstrap_thread
  simp only [hsd, if_true, register_thread_entry]

theorem auth_exit_tail_no_unlink_fault (env : Env) (st : State) (nr a1 : Nat) :
    (auth_exit_tail env st nr a1).unlink_fault = false := by
  unfold auth_exit_tail
  simp only
  split
  · show ("tld->chunk->ptr read with tld->chunk == NULL" == "te->tld read with te == NULL")
      = false
    decide
  · split_ifs
    · show ("hlt executed in user mode" == "te->tld read with te == NULL") = false
      decide
    · rfl

theorem auth_exit_no_unlink_fault (env : Env) (st : State) (a1 a2 a3 a4 a5 a6 sy : Nat)
    (hsd : env.SHARED_DATA = true) (hin : st.tld.addr ∈ st.threads) :
    (auth_exit env st SYS_exit a1 a2 a3 a4 a5 a6 sy).unlink_fault = false := by
  have hu := unlink_present st.tld.addr st.threads hin
  unfold auth_exit
  rw [if_neg (fun h => h.1 rfl)]
  unfold auth_exit_unregister
  simp only [hsd, if_true, hu, Option.map_some']
  exact auth_exit_tail_no_unlink_fault env _ SYS_exit a1

theorem run_thread_ops_invariant (env : Env) (tlds : Nat → thread_local_data)
    (hsd : env.SHARED_DATA = true) (ops : List thread_op) :
    ∀ (st : State) (live : Finset Nat), st.threads.Nodup → st.threads.toFinset = live →
      paired ops live →
      ∃ st', run_thread_ops env tlds ops st = some st' ∧ st'.threads.Nodup ∧
        st'.threads.toFinset = registered_not_unregistered ops live := by
  induction ops with
  | nil =>
    intro st live hnd hl _
    exact ⟨st, rfl, hnd, hl⟩
  | cons op ops ih =>
    intro st live hnd hl hp
    cases op with
    | register t =>
      obtain ⟨hnot, hp'⟩ := hp
      have hmem : t ∉ st.threads := by
        intro hm
        exact hnot (hl ▸ List.mem_toFinset.mpr hm)
      have hthreads : (fbt_bootstrap_thread env (st.as_thread tlds t)).threads
          = t :: st.threads := bootstrap_threads env (st.as_thread tlds t) hsd
      have := ih (fbt_bootstrap_thread env (st.as_thread tlds t)) (insert t live)
        (by rw [hthreads]; exact List.nodup_cons.mpr ⟨hmem, hnd⟩)
        (by rw [hthreads, List.toFinset_cons, hl]) hp'
      simpa [run_thread_ops, thread_step, registered_not_unregistered] using this
    | unregister t =>
      obtain ⟨hin, hp'⟩ := hp
      have hmem : t ∈ st.threads := List.mem_toFinset.mp (hl ▸ hin)
      have hset : (st.threads.erase t).toFinset = live.erase t := by
        ext x
        rw [List.mem_toFinset, hnd.mem_erase_iff, Finset.mem_erase, ← hl, List.mem_toFinset]
      have hnf : (auth_exit env (st.as_thread tlds t) SYS_exit 0 0 0 0 0 0 0).unlink_fault
          = false := auth_exit_no_unlink_fault env (st.as_thread tlds t) 0 0 0 0 0 0 0 hsd hmem
      have hthreads : (auth_exit env (st.as_thread tlds t) SYS_exit 0 0 0 0 0 0 0).st.threads
          = st.threads.erase t :=
        auth_exit_threads env (st.as_thread tlds t) SYS_exit 0 0 0 0 0 0 0 hsd (Or.inl rfl) _
          (unlink_present t st.threads hmem)
      have := ih (auth_exit env (st.as_thread tlds t) SYS_exit 0 0 0 0 0 0 0).st (live.erase t)
        (by rw [hthreads]; exact hnd.erase t) (by rw [hthreads]; exact hset) hp'
      simpa [run_thread_ops, thread_step, hnf, registered_not_unregistered] using this

/-- C20: in a `SHARED_DATA` build, from a state with an empty thread list,
every finite sequence of steps in which a thread calls `fbt_bootstrap_thread`
only while it is not registered and calls `auth_exit` only while it is
registered runs to its end without the fault of the unlink, each step starting
from the state the call before it has reached; the thread list of the last
state holds each tld at most once, and its set of tlds is the set of the tlds
registered and not yet unregistered. -/
theorem thread_list_integrity (env : Env) (tlds : Nat → thread_local_data) (st : State)
    (ops : List thread_op) (hsd : env.SHARED_DATA = true) (hempty : st.threads = [])
    (hp : paired ops ∅) :
    ∃ st', run_thread_ops env tlds ops st = some st' ∧ st'.threads.Nodup ∧
      st'.threads.toFinset = registered_not_unregistered ops ∅ :=
  run_thread_ops_invariant env tlds hsd ops st ∅ (by rw [hempty]; exact List.nodup_nil)
    (by rw [hempty]; rfl) hp

theorem thread_list_integrity_witness :
    paired [thread_op.register 0xA000, thread_op.register 0xB000,
      thread_op.unregister 0xA000] ∅ ∧
    ∃ st', run_thread_ops scenario_env scenario_tlds [thread_op.register 0xA000,
        thread_op.register 0xB000, thread_op.unregister 0xA000] scenario_state = some st' ∧
      st'.threads.Nodup ∧
      st'.threads.toFinset = registered_not_unregistered [thread_op.register 0xA000,
        thread_op.register 0xB000, thread_op.unregister 0xA000] ∅ :=
  ⟨by simp [paired],
    thread_list_integrity scenario_env scenario_tlds scenario_state
      [thread_op.register 0xA000, thread_op.register 0xB000, thread_op.unregister 0xA000]
      rfl rfl (by simp [paired])⟩

/-- C21: for every `auth_clone` call with `SYS_clone` whose flags `arg1` have
`CLONE_VM` clear, whatever `is_sysenter` is, the call returns
`SYSCALL_AUTH_FAKE` (EMULATED) with `*retval` the word the kernel returned
for `clone(arg1, arg2, arg3, arg4, arg5)`; that system call is the only event
of the call (no `fbt_init`, no `fbt_create_trampoline`, no
`fbt_ccache_add_entry`, no store) and no thread-local data is allocated. -/
theorem auth_clone_fork (env : Env) (st : State) (a1 a2 a3 a4 a5 a6 sy : Nat)
    (hvm : a1 &&& CLONE_VM = 0) :
    auth_clone env st SYS_clone a1 a2 a3 a4 a5 a6 sy =
      Outcome.returned SYSCALL_AUTH_FAKE
        { st.issue (KCall.clone a1 a2 a3 a4 a5) with
          retval := env.kernel (KCall.clone a1 a2 a3 a4 a5) % WORD } ∧
    (auth_clone env st SYS_clone a1 a2 a3 a4 a5 a6 sy).st.retval =
      env.kernel (KCall.clone a1 a2 a3 a4 a5) % WORD ∧
    (auth_clone env st SYS_clone a1 a2 a3 a4 a5 a6 sy).st.children = st.children ∧
    (auth_clone env st SYS_clone a1 a2 a3 a4 a5 a6 sy).st.events =
      st.events ++ [Event.syscall (KCall.clone a1 a2 a3 a4 a5)] ∧
    (auth_clone env st SYS_clone a1 a2 a3 a4 a5 a6 sy).st.kernel_calls =
      st.kernel_calls ++ [KCall.clone a1 a2 a3 a4 a5] := by
  have h : auth_clone env st SYS_clone a1 a2 a3 a4 a5 a6 sy =
      Outcome.returned SYSCALL_AUTH_FAKE
        { st.issue (KCall.clone a1 a2 a3 a4 a5) with
          retval := env.kernel (KCall.clone a1 a2 a3 a4 a5) % WORD } := by
    unfold auth_clone
    rw [if_neg (by simp), if_pos hvm]
  rw [h]
  exact ⟨rfl, rfl, rfl, rfl, rfl⟩

theorem auth_clone_fork_witness :
    auth_clone clone_env clone_state SYS_clone 17 0 0 0 0 0 1 =
      Outcome.returned SYSCALL_AUTH_FAKE
        { clone_state.issue (KCall.clone 17 0 0 0 0) with
          retval := clone_env.kernel (KCall.clone 17 0 0 0 0) % WORD } ∧
    (auth_clone clone_env clone_state SYS_clone 17 0 0 0 0 0 1).st.retval =
      clone_env.kernel (KCall.clone 17 0 0 0 0) % WORD ∧
    (auth_clone clone_env clone_state SYS_clone 17 0 0 0 0 0 1).st.children
      = clone_state.children ∧
    (auth_clone clone_env clone_state SYS_clone 17 0 0 0 0 0 1).st.events =
      clone_state.events ++ [Event.syscall (KCall.clone 17 0 0 0 0)] ∧
    (auth_clone clone_env clone_state SYS_clone 17 0 0 0 0 0 1).st.kernel_calls =
      clone_state.kernel_calls ++ [KCall.clone 17 0 0 0 0] :=
  auth_clone_fork clone_env clone_state 17 0 0 0 0 0 1 (by decide)

/-- C22: in a `SHARED_DATA` build, for every `auth_clone` call with
`SYS_clone`, `CLONE_VM` set in `arg1` and `is_sysenter = 0`: the thread-local
data `fbt_init(NULL)` returned is given the shared data of the caller;
`fbt_create_trampoline` is called for it with the target
`tld->syscall_location + 2` and the origin `childsp = arg2 - 4`; its
`ind_target` becomes the trampoline created; the word at `childsp` is
overwritten with its `bootstrap_thread_trampoline`; and `clone` is issued with
the child stack `childsp - 4`, where `ebx` was stored. Where the kernel's
answer is not 0 (the parent) the call returns `SYSCALL_AUTH_FAKE` (EMULATED)
with `*retval` that answer; where it is 0 (the new thread) control leaves
through `ret` to the bootstrap trampoline. -/
theorem auth_clone_thread (env : Env) (st : State) (a1 a2 a3 a4 a5 a6 : Nat)
    (hsd : env.SHARED_DATA = true) (hvm : a1 &&& CLONE_VM ≠ 0) :
    (auth_clone env st SYS_clone a1 a2 a3 a4 a5 a6 0).st.children =
      st.children ++
        [{ env.fbt_init with
           shared_data := st.tld.shared_data
           ind_target := env.fbt_create_trampoline env.fbt_init.addr
             ((st.tld.syscall_location + 2) % WORD) ((a2 + (WORD - 4)) % WORD) }] ∧
    (auth_clone env st SYS_clone a1 a2 a3 a4 a5 a6 0).st.events =
      st.events ++ [Event.fbt_init,
        Event.fbt_ccache_add_entry env.fbt_init.addr env.fbt_commit_transaction_addr
          env.fbt_end_transaction_addr] ++
        (if env.HIJACKCONTROL = true then
          [Event.fbt_ccache_add_entry env.fbt_init.addr env.fbt_exit_addr env.fbt_exit_addr]
         else []) ++
        [Event.fbt_create_trampoline env.fbt_init.addr
          ((st.tld.syscall_location + 2) % WORD) ((a2 + (WORD - 4)) % WORD),
         Event.store ((a2 + (WORD - 4)) % WORD) env.fbt_init.bootstrap_thread_trampoline,
         Event.store (((a2 + (WORD - 4)) % WORD + (WORD - 4)) % WORD) env.ebx,
         Event.syscall
           (KCall.clone a1 (((a2 + (WORD - 4)) % WORD + (WORD - 4)) % WORD) a3 a4 a5)] ∧
    (env.kernel (KCall.clone a1 (((a2 + (WORD - 4)) % WORD + (WORD - 4)) % WORD) a3 a4 a5)
        % WORD ≠ 0 →
      ∃ st', auth_clone env st SYS_clone a1 a2 a3 a4 a5 a6 0 =
          Outcome.returned SYSCALL_AUTH_FAKE st' ∧
        st'.retval =
          env.kernel (KCall.clone a1 (((a2 + (WORD - 4)) % WORD + (WORD - 4)) % WORD) a3 a4 a5)
            % WORD) ∧
    (env.kernel (KCall.clone a1 (((a2 + (WORD - 4)) % WORD + (WORD - 4)) % WORD) a3 a4 a5)
        % WORD = 0 →
      ∃ st', auth_clone env st SYS_clone a1 a2 a3 a4 a5 a6 0 =
          Outcome.jumped env.fbt_init.bootstrap_thread_trampoline st') := by
  unfold auth_clone
  rw [if_neg (by simp), if_neg hvm, if_pos ⟨hvm, rfl⟩]
  simp only [hsd, if_true]
  by_cases hk : env.kernel
      (KCall.clone a1 (((a2 + (WORD - 4)) % WORD + (WORD - 4)) % WORD) a3 a4 a5) % WORD = 0
  · simp only [hk, if_true, Outcome.st, State.issue]
    by_cases hh : env.HIJACKCONTROL = true
    · simp [hh]
    · simp [hh]
  · simp only [hk, if_false, Outcome.st, State.issue]
    by_cases hh : env.HIJACKCONTROL = true
    · simp [hh]
    · simp [hh]

theorem auth_clone_thread_witness :
    clone_env.SHARED_DATA = true ∧ 0x3d0f00 &&& CLONE_VM ≠ 0 ∧
    (auth_clone clone_env clone_state SYS_clone 0x3d0f00 0xb7000000 0 0 0 0 0).st.children =
      [{ clone_env.fbt_init with shared_data := 0x9000, ind_target := 0x7100 }] ∧
    (auth_clone clone_env clone_state SYS_clone 0x3d0f00 0xb7000000 0 0 0 0 0).st.events =
      [Event.fbt_init, Event.fbt_ccache_add_entry 0xC000 0 0,
       Event.fbt_create_trampoline 0xC000 0x8048002 0xb6fffffc,
       Event.store 0xb6fffffc 0x7000, Event.store 0xb6fffff8 0,
       Event.syscall (KCall.clone 0x3d0f00 0xb6fffff8 0 0 0)] ∧
    ∃ st', auth_clone clone_env clone_state SYS_clone 0x3d0f00 0xb7000000 0 0 0 0 0 =
        Outcome.returned SYSCALL_AUTH_FAKE st' ∧ st'.retval = 4242 :=
  have h := auth_clone_thread clone_env clone_state 0x3d0f00 0xb7000000 0 0 0 0 rfl
    (by decide)
  ⟨rfl, by decide, h.1, h.2.1, h.2.2.1 (by decide)⟩

/-- C23: for every `auth_clone` call with `SYS_clone`, `CLONE_VM` set in
`arg1` and `is_sysenter` not 0, the call ends in the fatal abort
"Unhandled combination of arguments for clone." in the state it was called
in: no thread-local data is allocated, no trampoline is created, no word is
stored and no system call is issued. -/
theorem auth_clone_sysenter_aborts (env : Env) (st : State) (a1 a2 a3 a4 a5 a6 sy : Nat)
    (hvm : a1 &&& CLONE_VM ≠ 0) (hsy : sy ≠ 0) :
    auth_clone env st SYS_clone a1 a2 a3 a4 a5 a6 sy =
      Outcome.abort "Unhandled combination of arguments for clone.\n" st := by
  unfold auth_clone
  rw [if_neg (by simp), if_neg hvm, if_neg (fun h => hsy h.2)]

theorem auth_clone_sysenter_aborts_witness :
    0x3d0f00 &&& CLONE_VM ≠ 0 ∧
    auth_clone clone_env clone_state SYS_clone 0x3d0f00 0xb7000000 0 0 0 0 1 =
      Outcome.abort "Unhandled combination of arguments for clone.\n" clone_state :=
  ⟨by decide,
    auth_clone_sysenter_aborts clone_env clone_state 0x3d0f00 0xb7000000 0 0 0 0 1
      (by decide) (by decide)⟩

theorem between_syscalls_exit (nr : Nat) (r : Reg) :
    between_syscalls (auth_exit_asm nr r) =
      [Instr.movl (Operand.imm (if nr = SYS_exit then SYS_exit else SYS_exit_group)) Reg.eax,
       Instr.movl (Operand.reg r) Reg.ebx] := by
  unfold auth_exit_asm
  split_ifs <;> rfl

theorem run_exit_sequence (chunk : mem_info) (kernel : Nat × Nat × Nat → Nat) (nr : Nat)
    (r : Reg) (regs : Reg → Nat) (arg1 : Nat) :
    (run_sequence chunk kernel (exit_sequence nr r) (exit_entry regs r arg1)).syscalls =
      [(SYS_munmap, chunk.ptr, chunk.size),
       (nr % WORD,
        (if r = Reg.eax then nr % WORD
         else if r = Reg.ebx then chunk.ptr
         else if r = Reg.ecx then chunk.size
         else arg1),
        chunk.size)] ∧
    (run_sequence chunk kernel (exit_sequence nr r) (exit_entry regs r arg1)).loads =
      [(0, MemOperand.chunk_ptr), (0, MemOperand.chunk_size)] := by
  cases r <;>
    simp [run_sequence, exit_sequence, Instr.step, exit_entry, Function.update, SYS_munmap, WORD]

theorem exit_sequence_keeps_code (chunk : mem_info) (kernel : Nat × Nat × Nat → Nat)
    (nr : Nat) (r : Reg) (regs : Reg → Nat) (arg1 : Nat)
    (hr : r ∉ [Reg.eax, Reg.ebx, Reg.ecx]) :
    (run_sequence chunk kernel (exit_sequence nr r) (exit_entry regs r arg1)).syscalls =
      [(SYS_munmap, chunk.ptr, chunk.size), (nr % WORD, arg1, chunk.size)] := by
  rw [(run_exit_sequence chunk kernel nr r regs arg1).1]
  simp only [List.mem_cons, List.mem_singleton, List.not_mem_nil, or_false, not_or] at hr
  simp [hr.1, hr.2.1, hr.2.2]

theorem auth_exit_asm_eq (nr : Nat) (r : Reg) (hnr : nr = SYS_exit ∨ nr = SYS_exit_group) :
    auth_exit_asm nr r = exit_sequence nr r := by
  unfold auth_exit_asm
  rcases hnr with h | h
  · rw [if_pos h, h]
  · rw [if_neg (by rw [h]; decide), h]

theorem auth_exit_tail_eq (env : Env) (st : State) (nr a1 : Nat) (chunk : mem_info)
    (rest : List mem_info) (hnr : nr = SYS_exit ∨ nr = SYS_exit_group)
    (hchunk : env.fbt_exit st.tld = chunk :: rest) :
    auth_exit_tail env st nr a1 =
      (if env.exit_returns = true then Outcome.fault "hlt executed in user mode"
       else Outcome.exited)
        { st with
          tld := { st.tld with chunk := env.fbt_exit st.tld }
          kernel_calls := st.kernel_calls ++ [KCall.munmap chunk.ptr chunk.size] ++
            [KCall.exit nr
              (if env.exit_reg = Reg.eax then nr
               else if env.exit_reg = Reg.ebx then chunk.ptr
               else if env.exit_reg = Reg.ecx then chunk.size
               else a1)]
          events := st.events ++ [Event.fbt_end_transaction] ++ [Event.fbt_exit] ++
            [Event.syscall (KCall.munmap chunk.ptr chunk.size)] ++
            [Event.syscall (KCall.exit nr
              (if env.exit_reg = Reg.eax then nr
               else if env.exit_reg = Reg.ebx then chunk.ptr
               else if env.exit_reg = Reg.ecx then chunk.size
               else a1))] } := by
  have hmod : nr % WORD = nr := by
    rcases hnr with h | h <;> rw [h] <;> decide
  have hne : nr ≠ SYS_munmap := by
    rcases hnr with h | h <;> rw [h] <;> decide
  unfold auth_exit_tail
  simp only [hchunk, auth_exit_asm_eq nr env.exit_reg hnr,
    (run_exit_sequence chunk _ nr env.exit_reg env.regs a1).1, hmod, List.foldl_cons,
    List.foldl_nil, KCall.of_regs, State.issue, if_true, if_neg hne]
  split_ifs <;> rfl

/-- In a `SHARED_DATA` build, for every `auth_exit` call with `SYS_exit` or
`SYS_exit_group` of a thread that has an entry in the thread list, where
`fbt_exit` leaves a chunk in `tld->chunk`: the call does, in this order, lock
the mutex, unlink the entry and unlock the mutex, `fbt_end_transaction`,
`fbt_exit`, `munmap(tld->chunk->ptr, tld->chunk->size)`, and the system call
`syscall_nr`; it returns no verdict; it ends with the thread where the kernel
does not come back from that system call, and in the fault of `hlt` where it
does. The exit code handed to the kernel is what `ebx` holds at the second
`int $0x80`: `arg1` where the compiler chose for `arg1` a register the
sequence does not write, and `tld->chunk->ptr` where it chose `ebx`. -/
theorem auth_exit_effects (env : Env) (st : State) (nr a1 a2 a3 a4 a5 a6 sy : Nat)
    (chunk : mem_info) (rest : List mem_info)
    (hsd : env.SHARED_DATA = true) (hnr : nr = SYS_exit ∨ nr = SYS_exit_group)
    (hin : st.tld.addr ∈ st.threads) (hchunk : env.fbt_exit st.tld = chunk :: rest) :
    (auth_exit env st nr a1 a2 a3 a4 a5 a6 sy).st.events =
      st.events ++ [Event.fbt_mutex_lock, Event.fbt_mutex_unlock, Event.fbt_end_transaction,
        Event.fbt_exit, Event.syscall (KCall.munmap chunk.ptr chunk.size),
        Event.syscall (KCall.exit nr
          (if env.exit_reg = Reg.eax then nr
           else if env.exit_reg = Reg.ebx then chunk.ptr
           else if env.exit_reg = Reg.ecx then chunk.size
           else a1))] ∧
    (auth_exit env st nr a1 a2 a3 a4 a5 a6 sy).st.threads = st.threads.erase st.tld.addr ∧
    (∀ v st', auth_exit env st nr a1 a2 a3 a4 a5 a6 sy ≠ Outcome.returned v st') ∧
    (∀ msg st', auth_exit env st nr a1 a2 a3 a4 a5 a6 sy ≠ Outcome.abort msg st') ∧
    (env.exit_returns = false →
      ∃ st', auth_exit env st nr a1 a2 a3 a4 a5 a6 sy = Outcome.exited st') ∧
    (env.exit_returns = true →
      ∃ st', auth_exit env st nr a1 a2 a3 a4 a5 a6 sy =
        Outcome.fault "hlt executed in user mode" st') := by
  have hn : ¬ (nr ≠ SYS_exit ∧ nr ≠ SYS_exit_group) := by
    rintro ⟨h1, h2⟩
    rcases hnr with h | h
    · exact h1 h
    · exact h2 h
  have hu := unlink_present st.tld.addr st.threads hin
  have hr : auth_exit_unregister env st = some
      { st with threads := st.threads.erase st.tld.addr,
                events := st.events ++ [Event.fbt_mutex_lock] ++ [Event.fbt_mutex_unlock] } := by
    unfold auth_exit_unregister
    simp only [hsd, if_true, hu, Option.map_some']
  unfold auth_exit
  rw [if_neg hn, hr]
  simp only
  have ht := auth_exit_tail_eq env
    { st with threads := st.threads.erase st.tld.addr,
              events := st.events ++ [Event.fbt_mutex_lock] ++ [Event.fbt_mutex_unlock] }
    nr a1 chunk rest hnr hchunk
  rw [ht]
  by_cases hx : env.exit_returns = true
  · simp [hx, Outcome.st]
  · simp [hx, Outcome.st]

/-- C24 (the code at the failing inputs). In a build with `arg1` in `ebx`,
`auth_exit(tld, SYS_exit, 3, ...)` of the registered thread A, whose last
chunk is `{0x10000, 0x1000}`, does the five steps in the order of the claim
and hands the code `0x10000`, not 3, to `exit`. And for a thread without an
entry in the thread list the call has locked the mutex and done nothing else
when it faults in the unlink: no system call is issued. -/
theorem auth_exit_wrong_code_or_no_exit :
    ((auth_exit ebx_env (thread_A_state [0xB000, 0xA000]) SYS_exit 3 0 0 0 0 0 0).st.events
      = [Event.fbt_mutex_lock, Event.fbt_mutex_unlock, Event.fbt_end_transaction,
        Event.fbt_exit, Event.syscall (KCall.munmap 0x10000 0x1000),
        Event.syscall (KCall.exit SYS_exit 0x10000)] ∧
    (auth_exit ebx_env (thread_A_state [0xB000, 0xA000]) SYS_exit 3 0 0 0 0 0 0).st.threads
      = [0xB000]) ∧
    (0xA000 ∉ (thread_A_state [0xB000]).threads ∧
    auth_exit scenario_env (thread_A_state [0xB000]) SYS_exit 3 0 0 0 0 0 0
      = Outcome.fault "te->tld read with te == NULL"
          { thread_A_state [0xB000] with events := [Event.fbt_mutex_lock] } ∧
    (auth_exit scenario_env (thread_A_state [0xB000]) SYS_exit 3 0 0 0 0 0 0).st.kernel_calls
      = []) :=
  have h := auth_exit_effects ebx_env (thread_A_state [0xB000, 0xA000]) SYS_exit
    3 0 0 0 0 0 0 { ptr := 0x10000, size := 0x1000 } [] rfl (Or.inl rfl)
    (by simp [thread_A_state]) rfl
  ⟨⟨h.1, h.2.1.trans (by decide)⟩, by simp [thread_A_state], rfl, rfl⟩

/-- C25 (the code at the failing allocation). The clobber list of the asm
statement does not name `ebx`, so `ebx` is open to the compiler for operand
`%4`, `"r"(arg1)`. With `arg1 = 3` in `ebx` and the chunk `{0x10000, 0x1000}`
the sequence calls `munmap(0x10000, 0x1000)` and then `exit` with the code
`0x10000`: `movl %1, %%ebx` has overwritten `arg1` before the `munmap`. For
every choice of the register the instructions between the two `int $0x80`
have no memory operand, and the only memory reads of the sequence are the two
before the `munmap`. -/
theorem exit_sequence_operand_in_ebx :
    Reg.ebx ∉ exit_clobbers ∧
    (∀ (regs : Reg → Nat) (kernel : Nat × Nat × Nat → Nat),
      (run_sequence { ptr := 0x10000, size := 0x1000 } kernel (auth_exit_asm SYS_exit Reg.ebx)
        (exit_entry regs Reg.ebx 3)).syscalls =
        [(SYS_munmap, 0x10000, 0x1000), (SYS_exit, 0x10000, 0x1000)]) ∧
    (∀ (nr : Nat) (r : Reg),
      (between_syscalls (auth_exit_asm nr r)).all (fun i => !i.touches_memory) = true) ∧
    (∀ (chunk : mem_info) (kernel : Nat × Nat × Nat → Nat) (nr : Nat) (r : Reg)
        (regs : Reg → Nat) (arg1 : Nat),
      (run_sequence chunk kernel (exit_sequence nr r) (exit_entry regs r arg1)).loads =
        [(0, MemOperand.chunk_ptr), (0, MemOperand.chunk_size)]) := by
  refine ⟨by decide, ?_, ?_, ?_⟩
  · intro regs kernel
    have h := (run_exit_sequence { ptr := 0x10000, size := 0x1000 } kernel SYS_exit Reg.ebx
      regs 3).1
    simpa [auth_exit_asm, SYS_exit, WORD] using h
  · intro nr r
    rw [between_syscalls_exit]
    rfl
  · intro chunk kernel nr r regs arg1
    exact (run_exit_sequence chunk kernel nr r regs arg1).2

/-- The record at `p` has the stored word in field `f` after a store through
`p`, wherever `p` points. -/
theorem store_field_sigmem (env : Env) (st : State) (p : Nat) (f : sigfield) (w : Nat) :
    (st.store_field env p f w).sigmem p = (st.sigmem p).set f w := by
  unfold State.store_field
  cases ht : st.target_at p with
  | guest => simp [State.set_sigmem, ht]
  | signal_slot i => simp [State.set_sigmem, State.set_signal, ht]
  | translator entry => cases he : entry f <;> simp [State.set_sigmem, ht, he]

/-- A store through `p` of the word that slot `a1` holds in field `f` leaves
slot `a1` as it is, wherever `p` points. -/
theorem store_field_own_word (env : Env) (st : State) (p a1 : Nat) (f : sigfield) :
    (st.store_field env p f ((st.tld.signals a1).get f)).tld.signals a1 = st.tld.signals a1 := by
  unfold State.store_field
  cases ht : st.target_at p with
  | guest => simp [State.set_sigmem, ht]
  | signal_slot i =>
    by_cases hi : i = a1
    · subst hi
      cases f <;>
        simp [State.set_sigmem, State.set_signal, fbt_sigaction.set, fbt_sigaction.get, ht]
    · simp [State.set_sigmem, State.set_signal, Function.update_noteq (Ne.symm hi), ht]
  | translator entry => cases he : entry f <;> simp [State.set_sigmem, ht, he]

/-- C26: for every handle and every state, `dlclose` returns 0 and leaves
the state as it was: the chunk list, V, the tables and the thread list are
unchanged and no system call, so no `munmap`, is issued. -/
theorem dlclose_returns_zero (st : State) (handle : Nat) :
    (dlclose st handle).1 = 0 ∧ (dlclose st handle).2 = st ∧
    (dlclose st handle).2.kernel_calls = st.kernel_calls :=
  ⟨rfl, rfl, rfl⟩

theorem signal_slot_after (env : Env) (st : State) (a1 a2 a3 a4 a5 a6 sy : Nat) :
    ∃ st', auth_signal env st SYS_signal a1 a2 a3 a4 a5 a6 sy =
        Except.ok (SYSCALL_AUTH_FAKE, st') ∧
      st'.tld.signals a1 = { sigaction := a2, mask := 0, flags := 0, restorer := 0 } :=
  ⟨_, auth_signal_signal_eq env st a1 a2 a3 a4 a5 a6 sy, by simp⟩

theorem sigaction_reads_slot (env : Env) (st : State) (nr a1 a3 a4 a5 a6 sy : Nat)
    (hnr : nr = SYS_sigaction ∨ nr = SYS_rt_sigaction) (h3 : a3 ≠ 0) :
    ∃ st', auth_signal env st nr a1 0 a3 a4 a5 a6 sy = Except.ok (SYSCALL_AUTH_FAKE, st') ∧
      st'.sigmem a3 = st.tld.signals a1 := by
  let s0 : State := { st with retval := 0 }
  let s1 := s0.store_field env a3 sigfield.sigaction ((s0.tld.signals a1).get sigfield.sigaction)
  let s2 := s1.store_field env a3 sigfield.mask ((s1.tld.signals a1).get sigfield.mask)
  let s3 := s2.store_field env a3 sigfield.flags ((s2.tld.signals a1).get sigfield.flags)
  let s4 := s3.store_field env a3 sigfield.restorer ((s3.tld.signals a1).get sigfield.restorer)
  have e1 : s1.tld.signals a1 = st.tld.signals a1 := store_field_own_word env s0 a3 a1 _
  have e2 : s2.tld.signals a1 = st.tld.signals a1 :=
    (store_field_own_word env s1 a3 a1 _).trans e1
  have e3 : s3.tld.signals a1 = st.tld.signals a1 :=
    (store_field_own_word env s2 a3 a1 _).trans e2
  refine ⟨s4, ?_, ?_⟩
  · unfold auth_signal
    rcases hnr with h | h <;> subst h <;>
      simp [h3, SYS_sigaction, SYS_signal, SYS_rt_sigaction] <;> rfl
  · show (s3.store_field env a3 sigfield.restorer _).sigmem a3 = _
    rw [store_field_sigmem, e3]
    show ((s2.store_field env a3 sigfield.flags _).sigmem a3).set _ _ = _
    rw [store_field_sigmem, e2]
    show (((s1.store_field env a3 sigfield.mask _).sigmem a3).set _ _).set _ _ = _
    rw [store_field_sigmem, e1]
    show ((((s0.store_field env a3 sigfield.sigaction _).sigmem a3).set _ _).set _ _).set _ _ = _
    rw [store_field_sigmem]
    rfl

/-- C27: `auth_signal` uses `arg1` as the index into `tld->signals` without
comparing it with `MAX_NR_SIGNALS`. For every `arg1` at or above
`MAX_NR_SIGNALS` a `SYS_signal` call returns with the record
`{arg2, 0, 0, 0}` written at index `arg1`, and a `SYS_sigaction` call with a
non-null old pointer returns with the record read at index `arg1` copied to
the guest. -/
theorem auth_signal_index_past_capacity (b : Build) (env : Env) (st : State)
    (a1 a2 a3 a4 a5 a6 sy : Nat) (hcap : b.MAX_NR_SIGNALS ≤ a1) (h3 : a3 ≠ 0) :
    b.MAX_NR_SIGNALS ≤ a1 ∧
    (∃ st', auth_signal env st SYS_signal a1 a2 a3 a4 a5 a6 sy =
        Except.ok (SYSCALL_AUTH_FAKE, st') ∧
      st'.tld.signals a1 = { sigaction := a2, mask := 0, flags := 0, restorer := 0 }) ∧
    (∃ st', auth_signal env st SYS_sigaction a1 0 a3 a4 a5 a6 sy =
        Except.ok (SYSCALL_AUTH_FAKE, st') ∧
      st'.sigmem a3 = st.tld.signals a1) :=
  ⟨hcap, signal_slot_after env st a1 a2 a3 a4 a5 a6 sy,
    sigaction_reads_slot env st SYS_sigaction a1 a3 a4 a5 a6 sy (Or.inl rfl) h3⟩

theorem auth_signal_index_past_capacity_witness :
    example_build.MAX_NR_SIGNALS ≤ 64 ∧
    signal_state.tld.signals 64 = no_sigaction ∧
    (∃ st', auth_signal scenario_env signal_state SYS_signal 64 0x8048200 0xbfff0000 0 0 0 0 =
        Except.ok (SYSCALL_AUTH_FAKE, st') ∧
      st'.tld.signals 64 = { sigaction := 0x8048200, mask := 0, flags := 0, restorer := 0 }) ∧
    (∃ st', auth_signal scenario_env signal_state SYS_sigaction 64 0 0xbfff0000 0 0 0 0 =
        Except.ok (SYSCALL_AUTH_FAKE, st') ∧
      st'.sigmem 0xbfff0000 = signal_state.tld.signals 64) :=
  have h := auth_signal_index_past_capacity example_build scenario_env signal_state
    64 0x8048200 0xbfff0000 0 0 0 0 (by decide) (by decide)
  ⟨h.1, rfl, h.2.1, h.2.2⟩

/-- For every `auth_signal` call with `SYS_signal`, `SYS_sigaction` or
`SYS_rt_sigaction`, a signal number `arg1` below `MAX_NR_SIGNALS` and
pointers that are null or point to guest memory, the call returns, and in the
state it leaves every slot of `tld->signals` other than slot `arg1` is as
before, and so are the thread list, the chunk list T and the list V; no store
landed in data of the translator. The bound on `arg1` is not used by the
proof: a slot of `signals` behind the array is kept as a record of its own. -/
theorem auth_signal_frame (b : Build) (env : Env) (st : State)
    (nr a1 a2 a3 a4 a5 a6 sy : Nat)
    (hnr : nr = SYS_signal ∨ nr = SYS_sigaction ∨ nr = SYS_rt_sigaction)
    (_hin : a1 < b.MAX_NR_SIGNALS)
    (h2t : a2 ≠ 0 → st.target_at a2 = Target.guest)
    (h3t : a3 ≠ 0 → st.target_at a3 = Target.guest) :
    ∃ st', auth_signal env st nr a1 a2 a3 a4 a5 a6 sy = Except.ok (SYSCALL_AUTH_FAKE, st') ∧
      (∀ i, i ≠ a1 → st'.tld.signals i = st.tld.signals i) ∧
      st'.threads = st.threads ∧ st'.tld.chunk = st.tld.chunk ∧ st'.valid = st.valid ∧
      st'.stray_stores = st.stray_stores := by
  rcases hnr with h | h
  · subst h
    refine ⟨_, auth_signal_signal_eq env st a1 a2 a3 a4 a5 a6 sy, ?_, rfl, rfl, rfl, rfl⟩
    intro i hi
    simp [Function.update_noteq hi]
  · refine ⟨_, auth_sigaction_eq env st nr a1 a2 a3 a4 a5 a6 sy h h2t h3t, ?_, rfl, rfl, rfl,
      rfl⟩
    intro i hi
    by_cases h2 : a2 = 0
    · simp [h2]
    · simp [h2, Function.update_noteq hi]

/-- C28 (the code at the failing input). Slot 10 records `H_old`, slot 11 is
empty, and the guest calls `sigaction(10, NULL, p)` with the address `p` of
the slot `tld->signals[11]` as old pointer: the call returns EMULATED and slot
11 holds `H_old`. With an old pointer into other data of the translator the
four words are stored there. -/
theorem sigaction_old_pointer_rewrites_slot :
    slot_alias_state.tld.signals 10 = H_old ∧
    slot_alias_state.tld.signals 11 = no_sigaction ∧
    (∃ st', auth_signal scenario_env slot_alias_state SYS_sigaction 10 0 0x0804c0b0 0 0 0 0
        = Except.ok (SYSCALL_AUTH_FAKE, st') ∧
      st'.tld.signals 11 = H_old ∧
      st'.tld.signals 11 ≠ slot_alias_state.tld.signals 11) ∧
    (∃ st', auth_signal scenario_env table_alias_state SYS_rt_sigaction 10 0 0x0804d068 0 0 0 0
        = Except.ok (SYSCALL_AUTH_FAKE, st') ∧
      st'.stray_stores =
        [(0x0804d068, sigfield.sigaction, 0x8048100), (0x0804d068, sigfield.mask, 1),
         (0x0804d068, sigfield.flags, 2), (0x0804d068, sigfield.restorer, 3)]) :=
  ⟨rfl, rfl, ⟨_, rfl, rfl, by decide⟩, ⟨_, rfl, rfl⟩⟩

/-- C29: for every `auth_signal` call with `SYS_signal`, whatever the kernel
answers, the call returns with slot `arg1` of `tld->signals` holding
`{arg2, 0, 0, 0}`. With a kernel that rejects the call with `-EINVAL`, signal
10 and the handler `0x8048200`: `*retval` is the error word and slot 10, which
held `H_old`, holds `{0x8048200, 0, 0, 0}`. -/
theorem signal_slot_not_rolled_back :
    (∀ (env : Env) (st : State) (a1 a2 a3 a4 a5 a6 sy : Nat),
      ∃ st', auth_signal env st SYS_signal a1 a2 a3 a4 a5 a6 sy =
          Except.ok (SYSCALL_AUTH_FAKE, st') ∧
        st'.tld.signals a1 = { sigaction := a2, mask := 0, flags := 0, restorer := 0 }) ∧
    signal_state.tld.signals 10 = H_old ∧
    ∃ st', auth_signal einval_env signal_state SYS_signal 10 0x8048200 0 0 0 0 0 =
        Except.ok (SYSCALL_AUTH_FAKE, st') ∧
      st'.retval = WORD - 22 ∧
      st'.tld.signals 10 = { sigaction := 0x8048200, mask := 0, flags := 0, restorer := 0 } ∧
      st'.tld.signals 10 ≠ H_old := by
  refine ⟨fun env st a1 a2 a3 a4 a5 a6 sy => signal_slot_after env st a1 a2 a3 a4 a5 a6 sy,
    rfl, _, auth_signal_signal_eq einval_env signal_state 10 0x8048200 0 0 0 0 0, ?_, ?_, ?_⟩
  · decide
  · simp
  · simp [H_old]

end Fbt
